import Mathlib

/-!
Verification of the avaliacao-nortetel backend (src/main.py) against its
natural-language specification.  The Python service is shallowly embedded:
SQLAlchemy tables become Lean structures, database sessions become explicit
state values, each commit point of a handler is modelled as one committed
state, and every handler becomes a pure function from the incoming request
data and the current database state to a response plus the resulting
committed state(s).  External collaborators (passlib hashing, the jose JWT
library, Pydantic parsing) are modelled by deterministic functions that
expose exactly the interface behaviour the handlers rely on.
-/

namespace Nortetel

/-! ## Dates

Model of Python `datetime.date` together with
`datetime.strptime(s, "%Y-%m-%d").date()` as used by `atualizar_avaliacao`
(src/main.py line 2521) and of `str(date)` (ISO rendering) used when the old
date value is recorded in the audit change list (line 2533).
CPython's strptime requires exactly four digits for %Y, one or two digits for
%m and %d, matches the whole string, and the date constructor validates the
calendar (year 1..9999, month 1..12, day within the month's length).
-/

structure Date where
  year : Nat
  month : Nat
  day : Nat
deriving DecidableEq, Repr

def isLeapYear (y : Nat) : Bool :=
  (y % 4 == 0 && y % 100 != 0) || (y % 400 == 0)

def diasNoMes (y m : Nat) : Nat :=
  if m = 2 then (if isLeapYear y then 29 else 28)
  else if m = 4 ∨ m = 6 ∨ m = 9 ∨ m = 11 then 30
  else 31

def separarHifen (cs : List Char) : List (List Char) :=
  match cs with
  | [] => [[]]
  | c :: rest =>
      if c = '-' then [] :: separarHifen rest
      else
        match separarHifen rest with
        | [] => [[c]]
        | g :: gs => (c :: g) :: gs

def digitosParaNat (cs : List Char) : Nat :=
  cs.foldl (fun n c => n * 10 + (c.toNat - 48)) 0

/-- Model of `datetime.strptime(s, "%Y-%m-%d").date()`, returning `none`
exactly when CPython would raise `ValueError`. -/
def strptimeYmd (s : String) : Option Date :=
  match separarHifen s.data with
  | [ys, ms, ds] =>
      if ys.length = 4 ∧ ys.all Char.isDigit ∧
         (ms.length = 1 ∨ ms.length = 2) ∧ ms.all Char.isDigit ∧
         (ds.length = 1 ∨ ds.length = 2) ∧ ds.all Char.isDigit then
        let y := digitosParaNat ys
        let m := digitosParaNat ms
        let d := digitosParaNat ds
        if 1 ≤ y ∧ 1 ≤ m ∧ m ≤ 12 ∧ 1 ≤ d ∧ d ≤ diasNoMes y m then
          some ⟨y, m, d⟩
        else none
      else none
  | _ => none

def padNat (w n : Nat) : String :=
  let s := toString n
  if s.length < w then String.mk (List.replicate (w - s.length) ('0')) ++ s else s

/-- Model of Python `str(date)`: zero-padded ISO rendering. -/
def Date.toIso (d : Date) : String :=
  padNat 4 d.year ++ "-" ++ padNat 2 d.month ++ "-" ++ padNat 2 d.day

/-! ## Users and password hashing

The `usuarios` table (src/main.py lines 116-132).  Timestamps are irrelevant
to every claim and are omitted.  The passlib `pbkdf2_sha256` context
(lines 417-421) is external; it is modelled by a tagged deterministic
encoding whose only relevant property is that `verificar_senha p h` holds
exactly when `h` was produced by hashing `p`.
-/

structure Usuario where
  id : Nat
  nome : String
  email : String
  username : String
  senha_hash : String
  is_admin : Bool
  precisa_trocar_senha : Bool
  ativo : Bool
deriving DecidableEq, Repr

def gerar_hash_senha (senha_plana : String) : String :=
  "pbkdf2_sha256$" ++ senha_plana

def verificar_senha (senha_plana senha_hash : String) : Bool :=
  senha_hash == gerar_hash_senha senha_plana

/-- src/main.py lines 452-458: looks a user up by username, filtering on
`Usuario.ativo == True`, and takes the first row. -/
def obter_usuario_por_username (db : List Usuario) (username : String) : Option Usuario :=
  db.find? (fun u => u.username == username && u.ativo)

/-- src/main.py lines 460-469. -/
def autenticar_usuario (db : List Usuario) (username senha_plana : String) : Option Usuario :=
  match obter_usuario_por_username db username with
  | none => none
  | some usuario =>
      if ¬ verificar_senha senha_plana usuario.senha_hash then none
      else some usuario

/-! ## JWT tokens

src/main.py lines 83-86 and 430-450.  The jose library is external; the
HS256 signature is modelled by a deterministic function of the key and the
payload, and `jwt.decode` succeeds exactly when the signature matches the
recomputation and the token is not expired (jose raises `ExpiredSignatureError`,
a subclass of `JWTError`, when the `exp` claim is before the current time).
Timestamps are integers counting seconds.
-/

def SECRET_KEY : String := "troque-esta-chave-em-producao"

def ACCESS_TOKEN_EXPIRE_MINUTES : Nat := 60 * 8

structure JwtPayload where
  sub : Option String
  exp : Int
deriving DecidableEq, Repr

def jwtSign (key : String) (p : JwtPayload) : String :=
  key ++ "#" ++ (match p.sub with | none => "-" | some s => s) ++ "#" ++ toString p.exp

structure JwtToken where
  payload : JwtPayload
  assinatura : String
deriving DecidableEq, Repr

def jwtEncode (key : String) (p : JwtPayload) : JwtToken :=
  ⟨p, jwtSign key p⟩

def jwtDecode (key : String) (agora : Int) (t : JwtToken) : Option JwtPayload :=
  if t.assinatura ≠ jwtSign key t.payload then none
  else if t.payload.exp < agora then none
  else some t.payload

/-- src/main.py lines 430-446: copies the payload, adds an `exp` claim at
now plus the given lifetime (falling back to the 8-hour default when the
argument is absent or a zero timedelta, since `if expira_em:` is false for
both `None` and `timedelta(0)`), and signs with the secret key.  The payload
dict `{"sub": username}` is represented by its optional subject. -/
def criar_token_acesso (sub : Option String) (agora : Int) (expira_em : Option Int) : JwtToken :=
  let expire : Int :=
    match expira_em with
    | some delta =>
        if delta ≠ 0 then agora + delta
        else agora + (ACCESS_TOKEN_EXPIRE_MINUTES : Int) * 60
    | none => agora + (ACCESS_TOKEN_EXPIRE_MINUTES : Int) * 60
  jwtEncode SECRET_KEY ⟨sub, expire⟩

/-- src/main.py lines 482-511: decodes the bearer token (any decode failure,
including a bad signature or an expired token, raises the 401 credential
exception), requires a subject claim (401 otherwise), resolves the subject
through `obter_usuario_por_username` (401 when absent), and finally checks
the `ativo` flag (403).  HTTP error responses are modelled by their status
code on the `Except` error side. -/
def obter_usuario_atual (db : List Usuario) (agora : Int) (token : JwtToken) :
    Except Nat Usuario :=
  match jwtDecode SECRET_KEY agora token with
  | none => .error 401
  | some payload =>
      match payload.sub with
      | none => .error 401
      | some username =>
          match obter_usuario_por_username db username with
          | none => .error 401
          | some usuario =>
              if ¬ usuario.ativo then .error 403
              else .ok usuario

/-- src/main.py lines 514-521. -/
def obter_admin_atual (db : List Usuario) (agora : Int) (token : JwtToken) :
    Except Nat Usuario :=
  match obter_usuario_atual db agora token with
  | .error e => .error e
  | .ok usuario =>
      if ¬ usuario.is_admin then .error 403
      else .ok usuario

/-! ## Assessment records

The `avaliacoes` table (src/main.py lines 134-316) has, besides the fields
below, roughly a hundred further optional descriptive and quantity columns
(the q1..q5 sections, prerequisites, labor-day counters, schedule flags).
Those columns carry no logic of their own: `criar_avaliacao` copies each of
them verbatim from the payload and `atualizar_avaliacao` funnels every one
of them through the very same `atualiza_campo` helper embedded below, so the
embedding keeps the header fields (the ones with required/defaulted columns
and the date requiring parsing) and the first block of `atualiza_campo`
fields, which exercise every distinct code path of the source.
-/

structure Avaliacao where
  id : Nat
  equipe : Option String
  responsavel_avaliacao : Option String
  tipo_formulario : Option String
  cliente_nome : String
  objeto : Option String
  «local» : Option String
  data_avaliacao : Date
  contato : Option String
  email_cliente : Option String
  escopo_texto : Option String
  status : String
deriving DecidableEq, Repr

/-- The `avaliacoes_equipamentos` table (src/main.py lines 318-333). -/
structure AvaliacaoEquipamento where
  id : Nat
  avaliacao_id : Nat
  equipamento : String
  modelo : Option String
  quantidade : Int
  fabricante : Option String
deriving DecidableEq, Repr

/-- The `avaliacoes_outros_recursos` table (src/main.py lines 335-348). -/
structure AvaliacaoOutroRecurso where
  id : Nat
  avaliacao_id : Nat
  descricao : String
  quantidade : Int
deriving DecidableEq, Repr

/-- The `avaliacoes_auditoria` table (src/main.py lines 350-364); the
row id and the server-side timestamp are omitted. -/
structure AvaliacaoAuditoria where
  avaliacao_id : Nat
  usuario : String
  acao : String
  detalhes : String
deriving DecidableEq, Repr

/-- The `usuarios_auditoria` table (src/main.py lines 366-394). -/
structure UsuarioAuditoria where
  usuario_alvo_id : Nat
  usuario_acao_id : Option Nat
  acao : String
  detalhes : Option String
deriving DecidableEq, Repr

/-- The record-side database state: the rows of each table in the order an
unordered SELECT returns them, plus the next value of each id sequence.
Audit rows are ordered by insertion, matching retrieval sorted by the
ascending insertion timestamp. -/
structure BancoAvaliacoes where
  avaliacoes : List Avaliacao
  equipamentos : List AvaliacaoEquipamento
  outros_recursos : List AvaliacaoOutroRecurso
  auditoria : List AvaliacaoAuditoria
  proximo_id_avaliacao : Nat
  proximo_id_equipamento : Nat
  proximo_id_recurso : Nat
deriving DecidableEq, Repr

/-- The account-side database state. -/
structure BancoUsuarios where
  usuarios : List Usuario
  auditoria : List UsuarioAuditoria
deriving DecidableEq, Repr

/-! ### JSON detail payloads

`json.dumps(..., ensure_ascii=False)` on the small fixed-shape dicts the
handlers build; key order follows the Python dict literals. -/

def jsonStr (s : String) : String := "\"" ++ s ++ "\""

def jsonOpt : Option String → String
  | none => "null"
  | some s => jsonStr s

def virgulaEspaco : String := ", "

/-! ### Request schemas (Pydantic) -/

/-- `AvaliacaoCreateSchema` (src/main.py lines 597-625), restricted to the
embedded fields.  `data_avaliacao` is already a parsed date here because the
create schema types it as `date`; `status` carries the Pydantic default
"aberto" unless the client explicitly sends another value or null. -/
structure AvaliacaoCreateSchema where
  cliente_nome : String
  data_avaliacao : Date
  «local» : Option String
  objeto : Option String
  status : Option String
  tipo_formulario : Option String
  equipe : Option String
  responsavel_avaliacao : Option String
  contato : Option String
  email_cliente : Option String
  escopo_texto : Option String
deriving DecidableEq, Repr

/-- `AvaliacaoUpdateSchema` (src/main.py lines 752-1227), restricted to the
embedded fields; every field is optional and `data_avaliacao` is a raw
string converted manually by the handler. -/
structure AvaliacaoUpdateSchema where
  tipo_formulario : Option String
  cliente_nome : Option String
  data_avaliacao : Option String
  «local» : Option String
  objeto : Option String
  status : Option String
  equipe : Option String
  responsavel_avaliacao : Option String
  contato : Option String
  email_cliente : Option String
  escopo_texto : Option String
deriving DecidableEq, Repr

/-- `EquipamentoBaseSchema` (src/main.py lines 1722-1743). -/
structure EquipamentoBaseSchema where
  equipamento : String
  modelo : Option String
  quantidade : Int
  fabricante : Option String
deriving DecidableEq, Repr

/-- `OutroRecursoBaseSchema` (src/main.py lines 1750-1762). -/
structure OutroRecursoBaseSchema where
  descricao : String
  quantidade : Int
deriving DecidableEq, Repr

/-- `UsuarioStatusUpdateSchema` (src/main.py lines 587-588). -/
structure UsuarioStatusUpdateSchema where
  ativo : Bool
deriving DecidableEq, Repr

/-! ### Record endpoints -/

/-- Python `payload.status or "aberto"` (src/main.py line 2069): `or`
replaces both `None` and the empty string by the fallback. -/
def statusOuAberto : Option String → String
  | none => "aberto"
  | some s => if s = "" then ("aberto") else s

/-- src/main.py lines 2057-2221, `criar_avaliacao`: builds the record from
the payload, commits it (first transaction), then builds the CRIAR audit row
and commits again (second transaction).  The returned list holds the
database state after each of the two commits, in order. -/
def criar_avaliacao_commits (db : BancoAvaliacoes) (payload : AvaliacaoCreateSchema) :
    List BancoAvaliacoes × Avaliacao :=
  let avaliacao : Avaliacao :=
    { id := db.proximo_id_avaliacao
      equipe := payload.equipe
      responsavel_avaliacao := payload.responsavel_avaliacao
      tipo_formulario := payload.tipo_formulario
      cliente_nome := payload.cliente_nome
      objeto := payload.objeto
      «local» := payload.«local»
      data_avaliacao := payload.data_avaliacao
      contato := payload.contato
      email_cliente := payload.email_cliente
      escopo_texto := payload.escopo_texto
      status := statusOuAberto payload.status }
  let db1 : BancoAvaliacoes :=
    { db with
      avaliacoes := db.avaliacoes ++ [avaliacao]
      proximo_id_avaliacao := db.proximo_id_avaliacao + 1 }
  let log : AvaliacaoAuditoria :=
    ⟨avaliacao.id, "sistema", "CRIAR", "Avaliação criada via API"⟩
  let db2 : BancoAvaliacoes := { db1 with auditoria := db1.auditoria ++ [log] }
  ([db1, db2], avaliacao)

/-- `criar_avaliacao` seen from after the request: the state once both
commits succeeded, plus the response record. -/
def criar_avaliacao (db : BancoAvaliacoes) (payload : AvaliacaoCreateSchema) :
    BancoAvaliacoes × Avaliacao :=
  ((criar_avaliacao_commits db payload).1.getLastD db,
   (criar_avaliacao_commits db payload).2)

/-- Pagination defaults of `listar_avaliacoes` (src/main.py lines 2229-2236):
`skip: int = 0`, `limit: int = 100`.  Both parameters are unconstrained
signed integers — the handler attaches no validation to them. -/
def SKIP_PADRAO : Int := 0

def LIMIT_PADRAO : Int := 100

/-- src/main.py lines 2229-2236: `db.query(Avaliacao).offset(skip).limit(limit).all()`.
The handler performs no validation of its two signed query parameters and
forwards them into the SQL query.  PostgreSQL rejects a negative OFFSET or
LIMIT when the query executes; that rejection is a persistence-layer error,
fatal to the request and surfaced as a generic server error — not an HTTP
400 validation rejection issued by the endpoint, which has no validation —
and is modelled on the error side with the database's message.  For
non-negative values the query has no ORDER BY clause, so the rows come back
in whatever order the database stores them (the table-list order of the
state). -/
def listar_avaliacoes (db : BancoAvaliacoes) (skip limit : Int) :
    Except String (List Avaliacao) :=
  if skip < 0 then .error ("OFFSET must not be negative")
  else if limit < 0 then .error ("LIMIT must not be negative")
  else .ok ((db.avaliacoes.drop skip.toNat).take limit.toNat)

def substituirAvaliacao (lista : List Avaliacao) (nova : Avaliacao) : List Avaliacao :=
  lista.map (fun a => if a.id = nova.id then nova else a)

/-! ### The update workflow -/

/-- One recorded field-level change, the `{campo, antes, depois}` dict
appended to `alteracoes` (src/main.py lines 2512-2516). -/
structure Alteracao where
  campo : String
  antes : Option String
  depois : Option String
deriving DecidableEq, Repr

/-- The inner helper of `atualizar_avaliacao` (src/main.py lines 2539-2549):
skip an absent field, compare a present value with the current one, record a
change entry and apply the new value only when they differ. -/
def atualiza_campo (valor_novo : Option String) (nome_label : String)
    (valor_atual : Option String) (alteracoes : List Alteracao) :
    Option String × List Alteracao :=
  match valor_novo with
  | none => (valor_atual, alteracoes)
  | some v =>
      if some v = valor_atual then (valor_atual, alteracoes)
      else (some v, alteracoes ++ [⟨nome_label, valor_atual, some v⟩])

/-- The field-diffing body of `atualizar_avaliacao` (src/main.py lines
2506-2689) over the embedded fields, in source order: the inline
`cliente_nome` block, the `data_avaliacao` block with its strict parse
(raising 400 on failure, before anything is committed), then the
`atualiza_campo` calls.  Returns the updated record and the change list. -/
def atualizar_avaliacao_core (avaliacao : Avaliacao) (payload : AvaliacaoUpdateSchema) :
    Except Nat (Avaliacao × List Alteracao) :=
  let passo0 : String × List Alteracao :=
    match payload.cliente_nome with
    | none => (avaliacao.cliente_nome, [])
    | some v =>
        if v ≠ avaliacao.cliente_nome then
          (v, [⟨("cliente_nome"), some avaliacao.cliente_nome, some v⟩])
        else (avaliacao.cliente_nome, [])
  let resultadoData : Except Nat (Date × List Alteracao) :=
    match payload.data_avaliacao with
    | none => .ok (avaliacao.data_avaliacao, passo0.2)
    | some s =>
        match strptimeYmd s with
        | none => .error 400
        | some nova_data =>
            if nova_data ≠ avaliacao.data_avaliacao then
              .ok (nova_data,
                passo0.2 ++ [⟨("data_avaliacao"), some avaliacao.data_avaliacao.toIso, some s⟩])
            else .ok (avaliacao.data_avaliacao, passo0.2)
  match resultadoData with
  | .error e => .error e
  | .ok (data', alts1) =>
      let r2 := atualiza_campo payload.«local» ("local") avaliacao.«local» alts1
      let r3 := atualiza_campo payload.objeto ("objeto") avaliacao.objeto r2.2
      let r4 := atualiza_campo payload.status ("status") (some avaliacao.status) r3.2
      let r5 := atualiza_campo payload.tipo_formulario ("tipo_formulario")
        avaliacao.tipo_formulario r4.2
      let r6 := atualiza_campo payload.equipe ("equipe") avaliacao.equipe r5.2
      let r7 := atualiza_campo payload.responsavel_avaliacao ("responsavel_avaliacao")
        avaliacao.responsavel_avaliacao r6.2
      let r8 := atualiza_campo payload.contato ("contato") avaliacao.contato r7.2
      let r9 := atualiza_campo payload.email_cliente ("email_cliente")
        avaliacao.email_cliente r8.2
      let r10 := atualiza_campo payload.escopo_texto ("escopo_texto")
        avaliacao.escopo_texto r9.2
      .ok ({ avaliacao with
              cliente_nome := passo0.1
              data_avaliacao := data'
              «local» := r2.1
              objeto := r3.1
              status := (r4.1).getD avaliacao.status
              tipo_formulario := r5.1
              equipe := r6.1
              responsavel_avaliacao := r7.1
              contato := r8.1
              email_cliente := r9.1
              escopo_texto := r10.1 }, r10.2)

/-- The detail message when no field changed (src/main.py line 2694). -/
def detalheSemAlteracoes : String :=
  "Atualização chamada, mas nenhum campo foi alterado."

def alteracaoJson (alt : Alteracao) : String :=
  "\x7b\"campo\": " ++ jsonStr alt.campo ++ ", \"antes\": " ++ jsonOpt alt.antes ++
    ", \"depois\": " ++ jsonOpt alt.depois ++ "\x7d"

def alteracoesJson (alts : List Alteracao) : String :=
  "\x7b\"alteracoes\": [" ++ String.intercalate virgulaEspaco (alts.map alteracaoJson) ++ "]\x7d"

/-- src/main.py lines 2692-2699: the audit detail is the no-change message
when the change list is empty and its JSON rendering otherwise. -/
def detalheLog (alts : List Alteracao) : String :=
  if alts.isEmpty then detalheSemAlteracoes else alteracoesJson alts

/-- src/main.py lines 2489-2722, `atualizar_avaliacao`: 404 when the record
is absent, then the diffing body (which may raise 400), then the first
commit persisting the record and the second commit persisting the EDITAR
audit row.  On success the list holds the state after each commit. -/
def atualizar_avaliacao_commits (db : BancoAvaliacoes) (avaliacao_id : Nat)
    (payload : AvaliacaoUpdateSchema) :
    Except Nat (List BancoAvaliacoes × Avaliacao) :=
  match db.avaliacoes.find? (fun a => a.id == avaliacao_id) with
  | none => .error 404
  | some avaliacao =>
      match atualizar_avaliacao_core avaliacao payload with
      | .error e => .error e
      | .ok (avaliacao', alteracoes) =>
          let db1 : BancoAvaliacoes :=
            { db with avaliacoes := substituirAvaliacao db.avaliacoes avaliacao' }
          let log : AvaliacaoAuditoria :=
            ⟨avaliacao'.id, "sistema", "EDITAR", detalheLog alteracoes⟩
          let db2 : BancoAvaliacoes := { db1 with auditoria := db1.auditoria ++ [log] }
          .ok ([db1, db2], avaliacao')

/-- `atualizar_avaliacao` seen from after the request: every raise (404, 400)
happens before the first commit, so an error leaves the stored state exactly
as it was; on success the final committed state is returned. -/
def atualizar_avaliacao (db : BancoAvaliacoes) (avaliacao_id : Nat)
    (payload : AvaliacaoUpdateSchema) :
    Except Nat Avaliacao × BancoAvaliacoes :=
  match atualizar_avaliacao_commits db avaliacao_id payload with
  | .error e => (.error e, db)
  | .ok (commits, avaliacao') => (.ok avaliacao', commits.getLastD db)

/-! ### Child-line endpoints -/

def equipamentoAddJson (p : EquipamentoBaseSchema) : String :=
  "\x7b\"acao\": \"adicionar_equipamento\", \"equipamento\": " ++ jsonStr p.equipamento ++
    ", \"modelo\": " ++ jsonOpt p.modelo ++ ", \"quantidade\": " ++ toString p.quantidade ++
    ", \"fabricante\": " ++ jsonOpt p.fabricante ++ "\x7d"

def equipamentoRemJson (e : AvaliacaoEquipamento) : String :=
  "\x7b\"acao\": \"remover_equipamento\", \"equipamento\": " ++ jsonStr e.equipamento ++
    ", \"modelo\": " ++ jsonOpt e.modelo ++ ", \"quantidade\": " ++ toString e.quantidade ++
    ", \"fabricante\": " ++ jsonOpt e.fabricante ++ "\x7d"

def recursoAddJson (p : OutroRecursoBaseSchema) : String :=
  "\x7b\"acao\": \"adicionar_outro_recurso\", \"descricao\": " ++ jsonStr p.descricao ++
    ", \"quantidade\": " ++ toString p.quantidade ++ "\x7d"

def recursoRemJson (r : AvaliacaoOutroRecurso) : String :=
  "\x7b\"acao\": \"remover_outro_recurso\", \"descricao\": " ++ jsonStr r.descricao ++
    ", \"quantidade\": " ++ toString r.quantidade ++ "\x7d"

/-- src/main.py lines 2243-2292, `adicionar_equipamento`: 404 when the
parent record is absent, insert and commit, then audit row and commit. -/
def adicionar_equipamento_commits (db : BancoAvaliacoes) (avaliacao_id : Nat)
    (payload : EquipamentoBaseSchema) :
    Except Nat (List BancoAvaliacoes × AvaliacaoEquipamento) :=
  match db.avaliacoes.find? (fun a => a.id == avaliacao_id) with
  | none => .error 404
  | some avaliacao =>
      let equipamento : AvaliacaoEquipamento :=
        ⟨db.proximo_id_equipamento, avaliacao_id, payload.equipamento,
          payload.modelo, payload.quantidade, payload.fabricante⟩
      let db1 : BancoAvaliacoes :=
        { db with
          equipamentos := db.equipamentos ++ [equipamento]
          proximo_id_equipamento := db.proximo_id_equipamento + 1 }
      let log : AvaliacaoAuditoria :=
        ⟨avaliacao.id, "sistema", "ADD_EQUIPAMENTO", equipamentoAddJson payload⟩
      let db2 : BancoAvaliacoes := { db1 with auditoria := db1.auditoria ++ [log] }
      .ok ([db1, db2], equipamento)

def adicionar_equipamento (db : BancoAvaliacoes) (avaliacao_id : Nat)
    (payload : EquipamentoBaseSchema) :
    Except Nat AvaliacaoEquipamento × BancoAvaliacoes :=
  match adicionar_equipamento_commits db avaliacao_id payload with
  | .error e => (.error e, db)
  | .ok (commits, equipamento) => (.ok equipamento, commits.getLastD db)

/-- src/main.py lines 2312-2352, `remover_equipamento`: 404 when the row is
absent, snapshot its fields into the detail payload, delete and commit, then
audit row and commit. -/
def remover_equipamento_commits (db : BancoAvaliacoes) (equipamento_id : Nat) :
    Except Nat (List BancoAvaliacoes) :=
  match db.equipamentos.find? (fun e => e.id == equipamento_id) with
  | none => .error 404
  | some equipamento =>
      let db1 : BancoAvaliacoes :=
        { db with equipamentos := db.equipamentos.filter (fun e => e.id != equipamento_id) }
      let log : AvaliacaoAuditoria :=
        ⟨equipamento.avaliacao_id, "sistema", "REMOVER_EQUIPAMENTO",
          equipamentoRemJson equipamento⟩
      let db2 : BancoAvaliacoes := { db1 with auditoria := db1.auditoria ++ [log] }
      .ok [db1, db2]

def remover_equipamento (db : BancoAvaliacoes) (equipamento_id : Nat) :
    Except Nat Unit × BancoAvaliacoes :=
  match remover_equipamento_commits db equipamento_id with
  | .error e => (.error e, db)
  | .ok commits => (.ok (), commits.getLastD db)

/-- src/main.py lines 2359-2404, `adicionar_outro_recurso`. -/
def adicionar_outro_recurso_commits (db : BancoAvaliacoes) (avaliacao_id : Nat)
    (payload : OutroRecursoBaseSchema) :
    Except Nat (List BancoAvaliacoes × AvaliacaoOutroRecurso) :=
  match db.avaliacoes.find? (fun a => a.id == avaliacao_id) with
  | none => .error 404
  | some avaliacao =>
      let recurso : AvaliacaoOutroRecurso :=
        ⟨db.proximo_id_recurso, avaliacao_id, payload.descricao, payload.quantidade⟩
      let db1 : BancoAvaliacoes :=
        { db with
          outros_recursos := db.outros_recursos ++ [recurso]
          proximo_id_recurso := db.proximo_id_recurso + 1 }
      let log : AvaliacaoAuditoria :=
        ⟨avaliacao.id, "sistema", "ADD_OUTRO_RECURSO", recursoAddJson payload⟩
      let db2 : BancoAvaliacoes := { db1 with auditoria := db1.auditoria ++ [log] }
      .ok ([db1, db2], recurso)

def adicionar_outro_recurso (db : BancoAvaliacoes) (avaliacao_id : Nat)
    (payload : OutroRecursoBaseSchema) :
    Except Nat AvaliacaoOutroRecurso × BancoAvaliacoes :=
  match adicionar_outro_recurso_commits db avaliacao_id payload with
  | .error e => (.error e, db)
  | .ok (commits, recurso) => (.ok recurso, commits.getLastD db)

/-- src/main.py lines 2423-2463, `remover_outro_recurso`. -/
def remover_outro_recurso_commits (db : BancoAvaliacoes) (recurso_id : Nat) :
    Except Nat (List BancoAvaliacoes) :=
  match db.outros_recursos.find? (fun r => r.id == recurso_id) with
  | none => .error 404
  | some recurso =>
      let db1 : BancoAvaliacoes :=
        { db with outros_recursos := db.outros_recursos.filter (fun r => r.id != recurso_id) }
      let log : AvaliacaoAuditoria :=
        ⟨recurso.avaliacao_id, "sistema", "REMOVER_OUTRO_RECURSO", recursoRemJson recurso⟩
      let db2 : BancoAvaliacoes := { db1 with auditoria := db1.auditoria ++ [log] }
      .ok [db1, db2]

def remover_outro_recurso (db : BancoAvaliacoes) (recurso_id : Nat) :
    Except Nat Unit × BancoAvaliacoes :=
  match remover_outro_recurso_commits db recurso_id with
  | .error e => (.error e, db)
  | .ok commits => (.ok (), commits.getLastD db)

/-! ### Account status endpoint -/

def substituirUsuario (lista : List Usuario) (novo : Usuario) : List Usuario :=
  lista.map (fun u => if u.id = novo.id then novo else u)

def statusUsuarioJson (acao username : String) : String :=
  "\x7b\"acao\": " ++ jsonStr acao ++ ", \"usuario_alvo\": " ++ jsonStr username ++ "\x7d"

/-- src/main.py lines 1961-2004, `atualizar_status_usuario`: 404 on an
unknown id; 400 when the authenticated admin targets their own account with
`ativo = false` (raised before any commit, so the state is untouched);
otherwise apply the flag, commit, and append the ATIVAR_USUARIO or
DESATIVAR_USUARIO audit row chosen by the new status, then commit again. -/
def atualizar_status_usuario (db : BancoUsuarios) (usuario_id : Nat)
    (payload : UsuarioStatusUpdateSchema) (admin : Usuario) :
    Except Nat Usuario × BancoUsuarios :=
  match db.usuarios.find? (fun u => u.id == usuario_id) with
  | none => (.error 404, db)
  | some usuario =>
      if usuario.id = admin.id ∧ payload.ativo = false then (.error 400, db)
      else
        let usuario' : Usuario := { usuario with ativo := payload.ativo }
        let db1 : BancoUsuarios := { db with usuarios := substituirUsuario db.usuarios usuario' }
        let acao : String := if usuario'.ativo then ("ATIVAR_USUARIO") else ("DESATIVAR_USUARIO")
        let log : UsuarioAuditoria :=
          ⟨usuario'.id, some admin.id, acao, some (statusUsuarioJson acao usuario'.username)⟩
        let db2 : BancoUsuarios := { db1 with auditoria := db1.auditoria ++ [log] }
        (.ok usuario', db2)

/-! ### Route dependency table

The FastAPI dependency lists of the assessment-record routes, transcribed
from the decorators and handler signatures: every one of them takes only the
database session; none names `obter_usuario_atual` or `obter_admin_atual`,
so no bearer token is read and the 401/403 guard outcomes are unreachable on
these routes. -/

inductive Dependencia
  | banco
  | usuarioAtual
  | adminAtual
deriving DecidableEq, Repr

structure Rota where
  metodo : String
  caminho : String
  dependencias : List Dependencia
deriving DecidableEq, Repr

def rotasAvaliacoes : List Rota :=
  [⟨"POST", "/avaliacoes", [.banco]⟩,
   ⟨"GET", "/avaliacoes", [.banco]⟩,
   ⟨"GET", "/avaliacoes/{avaliacao_id}", [.banco]⟩,
   ⟨"PUT", "/avaliacoes/{avaliacao_id}", [.banco]⟩,
   ⟨"POST", "/avaliacoes/{avaliacao_id}/equipamentos", [.banco]⟩,
   ⟨"GET", "/avaliacoes/{avaliacao_id}/equipamentos", [.banco]⟩,
   ⟨"DELETE", "/equipamentos/{equipamento_id}", [.banco]⟩,
   ⟨"POST", "/avaliacoes/{avaliacao_id}/outros_recursos", [.banco]⟩,
   ⟨"GET", "/avaliacoes/{avaliacao_id}/outros_recursos", [.banco]⟩,
   ⟨"DELETE", "/outros_recursos/{recurso_id}", [.banco]⟩,
   ⟨"GET", "/avaliacoes/{avaliacao_id}/auditoria", [.banco]⟩]

/-! ## The per-field contract of the update differ

`campoAtualizado` and `campoAlteracoes` state, field by field, what §4.4 of
the specification calls the Update Differ contract: an absent payload field
leaves the stored value and records nothing; a present one replaces the
stored value and records a `{campo, antes, depois}` entry exactly when the
two differ.  The lemmas below prove that the sequential handler body equals
this per-field description. -/

def campoAtualizado (valor_novo valor_atual : Option String) : Option String :=
  match valor_novo with
  | none => valor_atual
  | some v => some v

def campoAlteracoes (nome_label : String) (valor_novo valor_atual : Option String) :
    List Alteracao :=
  match valor_novo with
  | none => []
  | some v => if some v = valor_atual then [] else [⟨nome_label, valor_atual, some v⟩]

def clienteAtualizado (a : Avaliacao) (p : AvaliacaoUpdateSchema) : String :=
  (campoAtualizado p.cliente_nome (some a.cliente_nome)).getD a.cliente_nome

def alteracoesCliente (a : Avaliacao) (p : AvaliacaoUpdateSchema) : List Alteracao :=
  campoAlteracoes ("cliente_nome") p.cliente_nome (some a.cliente_nome)

def alteracoesData (a : Avaliacao) (s : String) (d : Date) : List Alteracao :=
  if d ≠ a.data_avaliacao then
    [⟨("data_avaliacao"), some a.data_avaliacao.toIso, some s⟩]
  else []

def alteracoesSimples (a : Avaliacao) (p : AvaliacaoUpdateSchema) : List Alteracao :=
  campoAlteracoes ("local") p.«local» a.«local» ++
  campoAlteracoes ("objeto") p.objeto a.objeto ++
  campoAlteracoes ("status") p.status (some a.status) ++
  campoAlteracoes ("tipo_formulario") p.tipo_formulario a.tipo_formulario ++
  campoAlteracoes ("equipe") p.equipe a.equipe ++
  campoAlteracoes ("responsavel_avaliacao") p.responsavel_avaliacao a.responsavel_avaliacao ++
  campoAlteracoes ("contato") p.contato a.contato ++
  campoAlteracoes ("email_cliente") p.email_cliente a.email_cliente ++
  campoAlteracoes ("escopo_texto") p.escopo_texto a.escopo_texto

def resultadoCampos (a : Avaliacao) (p : AvaliacaoUpdateSchema) (d : Date) : Avaliacao :=
  { a with
    cliente_nome := clienteAtualizado a p
    data_avaliacao := d
    «local» := campoAtualizado p.«local» a.«local»
    objeto := campoAtualizado p.objeto a.objeto
    status := (campoAtualizado p.status (some a.status)).getD a.status
    tipo_formulario := campoAtualizado p.tipo_formulario a.tipo_formulario
    equipe := campoAtualizado p.equipe a.equipe
    responsavel_avaliacao := campoAtualizado p.responsavel_avaliacao a.responsavel_avaliacao
    contato := campoAtualizado p.contato a.contato
    email_cliente := campoAtualizado p.email_cliente a.email_cliente
    escopo_texto := campoAtualizado p.escopo_texto a.escopo_texto }

theorem atualiza_campo_eq (novo : Option String) (lbl : String) (atual : Option String)
    (alts : List Alteracao) :
    atualiza_campo novo lbl atual alts =
      (campoAtualizado novo atual, alts ++ campoAlteracoes lbl novo atual) := by
  cases novo with
  | none => simp [atualiza_campo, campoAtualizado, campoAlteracoes]
  | some v =>
      by_cases h : some v = atual
      · simp [atualiza_campo, campoAtualizado, campoAlteracoes, h]
      · simp [atualiza_campo, campoAtualizado, campoAlteracoes, h]

theorem core_data_none (a : Avaliacao) (p : AvaliacaoUpdateSchema)
    (h : p.data_avaliacao = none) :
    atualizar_avaliacao_core a p =
      .ok (resultadoCampos a p a.data_avaliacao,
        alteracoesCliente a p ++ alteracoesSimples a p) := by
  cases hc : p.cliente_nome with
  | none =>
      simp [atualizar_avaliacao_core, h, hc, atualiza_campo_eq, resultadoCampos,
        clienteAtualizado, alteracoesCliente, alteracoesSimples, campoAtualizado,
        campoAlteracoes, List.append_assoc]
  | some v =>
      by_cases hv : v = a.cliente_nome
      · simp [atualizar_avaliacao_core, h, hc, hv, atualiza_campo_eq, resultadoCampos,
          clienteAtualizado, alteracoesCliente, alteracoesSimples, campoAtualizado,
          campoAlteracoes, List.append_assoc]
      · simp [atualizar_avaliacao_core, h, hc, hv, atualiza_campo_eq, resultadoCampos,
          clienteAtualizado, alteracoesCliente, alteracoesSimples, campoAtualizado,
          campoAlteracoes, List.append_assoc]

theorem core_data_bad (a : Avaliacao) (p : AvaliacaoUpdateSchema) (s : String)
    (hs : p.data_avaliacao = some s) (hb : strptimeYmd s = none) :
    atualizar_avaliacao_core a p = .error 400 := by
  simp [atualizar_avaliacao_core, hs, hb]

theorem core_data_some (a : Avaliacao) (p : AvaliacaoUpdateSchema) (s : String) (d : Date)
    (hs : p.data_avaliacao = some s) (hd : strptimeYmd s = some d) :
    atualizar_avaliacao_core a p =
      .ok (resultadoCampos a p d,
        alteracoesCliente a p ++ alteracoesData a s d ++ alteracoesSimples a p) := by
  by_cases hda : d = a.data_avaliacao
  · cases hc : p.cliente_nome with
    | none =>
        simp [atualizar_avaliacao_core, hs, hd, hda, hc, atualiza_campo_eq, resultadoCampos,
          clienteAtualizado, alteracoesCliente, alteracoesData, alteracoesSimples,
          campoAtualizado, campoAlteracoes, List.append_assoc]
    | some v =>
        by_cases hv : v = a.cliente_nome
        · simp [atualizar_avaliacao_core, hs, hd, hda, hc, hv, atualiza_campo_eq,
            resultadoCampos, clienteAtualizado, alteracoesCliente, alteracoesData,
            alteracoesSimples, campoAtualizado, campoAlteracoes, List.append_assoc]
        · simp [atualizar_avaliacao_core, hs, hd, hda, hc, hv, atualiza_campo_eq,
            resultadoCampos, clienteAtualizado, alteracoesCliente, alteracoesData,
            alteracoesSimples, campoAtualizado, campoAlteracoes, List.append_assoc]
  · cases hc : p.cliente_nome with
    | none =>
        simp [atualizar_avaliacao_core, hs, hd, hda, hc, atualiza_campo_eq, resultadoCampos,
          clienteAtualizado, alteracoesCliente, alteracoesData, alteracoesSimples,
          campoAtualizado, campoAlteracoes, List.append_assoc]
    | some v =>
        by_cases hv : v = a.cliente_nome
        · simp [atualizar_avaliacao_core, hs, hd, hda, hc, hv, atualiza_campo_eq,
            resultadoCampos, clienteAtualizado, alteracoesCliente, alteracoesData,
            alteracoesSimples, campoAtualizado, campoAlteracoes, List.append_assoc]
        · simp [atualizar_avaliacao_core, hs, hd, hda, hc, hv, atualiza_campo_eq,
            resultadoCampos, clienteAtualizado, alteracoesCliente, alteracoesData,
            alteracoesSimples, campoAtualizado, campoAlteracoes, List.append_assoc]

theorem mem_campoAlteracoes {alt : Alteracao} {lbl : String} {novo atual : Option String}
    (h : alt ∈ campoAlteracoes lbl novo atual) : alt.campo = lbl := by
  cases novo with
  | none => simp [campoAlteracoes] at h
  | some v =>
      by_cases hv : some v = atual
      · simp [campoAlteracoes, hv] at h
      · simp [campoAlteracoes, hv] at h
        subst h
        rfl

theorem filter_campoAlteracoes (lbl x : String) (novo atual : Option String) :
    (campoAlteracoes lbl novo atual).filter (fun alt => alt.campo == x) =
      (if lbl = x then campoAlteracoes lbl novo atual else []) := by
  by_cases hl : lbl = x
  · cases novo with
    | none => simp [campoAlteracoes, hl]
    | some v =>
        by_cases hv : some v = atual
        · simp [campoAlteracoes, hl, hv]
        · simp [campoAlteracoes, hl, hv, List.filter]
  · cases novo with
    | none => simp [campoAlteracoes, hl]
    | some v =>
        by_cases hv : some v = atual
        · simp [campoAlteracoes, hl, hv]
        · simp [campoAlteracoes, hl, hv, List.filter]

theorem mem_alteracoesData {alt : Alteracao} {a : Avaliacao} {s : String} {d : Date}
    (h : alt ∈ alteracoesData a s d) : alt.campo = ("data_avaliacao") := by
  by_cases hd : d = a.data_avaliacao
  · simp [alteracoesData, hd] at h
  · simp [alteracoesData, hd] at h
    subst h
    rfl

theorem filter_alteracoesData (a : Avaliacao) (s : String) (d : Date) (x : String) :
    (alteracoesData a s d).filter (fun alt => alt.campo == x) =
      (if ("data_avaliacao") = x then alteracoesData a s d else []) := by
  by_cases hl : ("data_avaliacao") = x
  · by_cases hd : d = a.data_avaliacao
    · simp [alteracoesData, hd, hl]
    · simp [alteracoesData, hd, hl, List.filter]
  · by_cases hd : d = a.data_avaliacao
    · simp [alteracoesData, hd, hl]
    · simp [alteracoesData, hd, hl, List.filter]

def rotulosCampos : List String :=
  ["cliente_nome", "data_avaliacao", "local", "objeto", "status", "tipo_formulario",
   "equipe", "responsavel_avaliacao", "contato", "email_cliente", "escopo_texto"]

theorem rotulos_cobertos (a : Avaliacao) (p : AvaliacaoUpdateSchema)
    (dalts : List Alteracao)
    (hd : ∀ alt ∈ dalts, alt.campo = ("data_avaliacao")) :
    ∀ alt ∈ alteracoesCliente a p ++ dalts ++ alteracoesSimples a p,
      alt.campo ∈ rotulosCampos := by
  intro alt hmem
  simp only [alteracoesCliente, alteracoesSimples, List.append_assoc,
    List.mem_append] at hmem
  rcases hmem with h | h | h | h | h | h | h | h | h | h | h
  · rw [mem_campoAlteracoes h]; simp [rotulosCampos]
  · rw [hd alt h]; simp [rotulosCampos]
  · rw [mem_campoAlteracoes h]; simp [rotulosCampos]
  · rw [mem_campoAlteracoes h]; simp [rotulosCampos]
  · rw [mem_campoAlteracoes h]; simp [rotulosCampos]
  · rw [mem_campoAlteracoes h]; simp [rotulosCampos]
  · rw [mem_campoAlteracoes h]; simp [rotulosCampos]
  · rw [mem_campoAlteracoes h]; simp [rotulosCampos]
  · rw [mem_campoAlteracoes h]; simp [rotulosCampos]
  · rw [mem_campoAlteracoes h]; simp [rotulosCampos]
  · rw [mem_campoAlteracoes h]; simp [rotulosCampos]

/-- Claim C2: for every stored assessment record and partial-update payload
accepted by PUT /avaliacoes/(id), the change list and the updated record are
characterised field by field.  The entries carrying a field's label are
exactly the per-field contract `campoAlteracoes`, which is empty when the
field is omitted (null) in the payload and also empty when the present value
equals the stored one (for the date, the comparison happens after parsing),
and is the single recorded `{campo, antes, depois}` triple when the field is
present and differs; every entry's label names one of the fields; and every
field of the produced record equals `campoAtualizado` of its payload and
stored values, so omitted fields keep their stored values and only present,
differing fields are modified. -/
theorem claim_C2 (a : Avaliacao) (p : AvaliacaoUpdateSchema) (r : Avaliacao)
    (alts : List Alteracao)
    (h : atualizar_avaliacao_core a p = .ok (r, alts)) :
    (List.filter (fun alt => alt.campo == "cliente_nome") alts = alteracoesCliente a p ∧
      r.cliente_nome = clienteAtualizado a p) ∧
    ((p.data_avaliacao = none →
        List.filter (fun alt => alt.campo == "data_avaliacao") alts = [] ∧
        r.data_avaliacao = a.data_avaliacao) ∧
      (∀ s, p.data_avaliacao = some s →
        ∃ d, strptimeYmd s = some d ∧
          List.filter (fun alt => alt.campo == "data_avaliacao") alts = alteracoesData a s d ∧
          r.data_avaliacao = d)) ∧
    (List.filter (fun alt => alt.campo == "local") alts =
        campoAlteracoes ("local") p.«local» a.«local» ∧
      r.«local» = campoAtualizado p.«local» a.«local») ∧
    (List.filter (fun alt => alt.campo == "objeto") alts =
        campoAlteracoes ("objeto") p.objeto a.objeto ∧
      r.objeto = campoAtualizado p.objeto a.objeto) ∧
    (List.filter (fun alt => alt.campo == "status") alts =
        campoAlteracoes ("status") p.status (some a.status) ∧
      r.status = (campoAtualizado p.status (some a.status)).getD a.status) ∧
    (List.filter (fun alt => alt.campo == "tipo_formulario") alts =
        campoAlteracoes ("tipo_formulario") p.tipo_formulario a.tipo_formulario ∧
      r.tipo_formulario = campoAtualizado p.tipo_formulario a.tipo_formulario) ∧
    (List.filter (fun alt => alt.campo == "equipe") alts =
        campoAlteracoes ("equipe") p.equipe a.equipe ∧
      r.equipe = campoAtualizado p.equipe a.equipe) ∧
    (List.filter (fun alt => alt.campo == "responsavel_avaliacao") alts =
        campoAlteracoes ("responsavel_avaliacao") p.responsavel_avaliacao
          a.responsavel_avaliacao ∧
      r.responsavel_avaliacao = campoAtualizado p.responsavel_avaliacao
        a.responsavel_avaliacao) ∧
    (List.filter (fun alt => alt.campo == "contato") alts =
        campoAlteracoes ("contato") p.contato a.contato ∧
      r.contato = campoAtualizado p.contato a.contato) ∧
    (List.filter (fun alt => alt.campo == "email_cliente") alts =
        campoAlteracoes ("email_cliente") p.email_cliente a.email_cliente ∧
      r.email_cliente = campoAtualizado p.email_cliente a.email_cliente) ∧
    (List.filter (fun alt => alt.campo == "escopo_texto") alts =
        campoAlteracoes ("escopo_texto") p.escopo_texto a.escopo_texto ∧
      r.escopo_texto = campoAtualizado p.escopo_texto a.escopo_texto) ∧
    (∀ alt ∈ alts, alt.campo ∈ rotulosCampos) := by
  cases hpd : p.data_avaliacao with
  | none =>
      rw [core_data_none a p hpd, Except.ok.injEq, Prod.mk.injEq] at h
      obtain ⟨hr, ha⟩ := h
      subst hr
      subst ha
      refine ⟨⟨?_, rfl⟩, ⟨fun _ => ⟨?_, rfl⟩, fun s hs => ?_⟩,
        ⟨?_, rfl⟩, ⟨?_, rfl⟩, ⟨?_, rfl⟩, ⟨?_, rfl⟩, ⟨?_, rfl⟩, ⟨?_, rfl⟩, ⟨?_, rfl⟩,
        ⟨?_, rfl⟩, ⟨?_, rfl⟩, ?_⟩
      · simp [alteracoesCliente, alteracoesSimples, List.filter_append,
          filter_campoAlteracoes]
      · simp [alteracoesCliente, alteracoesSimples, List.filter_append,
          filter_campoAlteracoes]
      · cases hs
      · simp [alteracoesCliente, alteracoesSimples, List.filter_append,
          filter_campoAlteracoes]
      · simp [alteracoesCliente, alteracoesSimples, List.filter_append,
          filter_campoAlteracoes]
      · simp [alteracoesCliente, alteracoesSimples, List.filter_append,
          filter_campoAlteracoes]
      · simp [alteracoesCliente, alteracoesSimples, List.filter_append,
          filter_campoAlteracoes]
      · simp [alteracoesCliente, alteracoesSimples, List.filter_append,
          filter_campoAlteracoes]
      · simp [alteracoesCliente, alteracoesSimples, List.filter_append,
          filter_campoAlteracoes]
      · simp [alteracoesCliente, alteracoesSimples, List.filter_append,
          filter_campoAlteracoes]
      · simp [alteracoesCliente, alteracoesSimples, List.filter_append,
          filter_campoAlteracoes]
      · simp [alteracoesCliente, alteracoesSimples, List.filter_append,
          filter_campoAlteracoes]
      · intro alt halt
        refine rotulos_cobertos a p [] (by simp) alt ?_
        simpa using halt
  | some s0 =>
      cases hd : strptimeYmd s0 with
      | none =>
          rw [core_data_bad a p s0 hpd hd] at h
          cases h
      | some d =>
          rw [core_data_some a p s0 d hpd hd, Except.ok.injEq, Prod.mk.injEq] at h
          obtain ⟨hr, ha⟩ := h
          subst hr
          subst ha
          refine ⟨⟨?_, rfl⟩, ⟨fun habs => ?_, fun s hs => ?_⟩,
            ⟨?_, rfl⟩, ⟨?_, rfl⟩, ⟨?_, rfl⟩, ⟨?_, rfl⟩, ⟨?_, rfl⟩, ⟨?_, rfl⟩, ⟨?_, rfl⟩,
            ⟨?_, rfl⟩, ⟨?_, rfl⟩, ?_⟩
          · simp [alteracoesCliente, alteracoesSimples, List.filter_append,
              filter_campoAlteracoes, filter_alteracoesData]
          · cases habs
          · injection hs with hss
            subst hss
            refine ⟨d, hd, ?_, rfl⟩
            simp [alteracoesCliente, alteracoesSimples, List.filter_append,
              filter_campoAlteracoes, filter_alteracoesData]
          · simp [alteracoesCliente, alteracoesSimples, List.filter_append,
              filter_campoAlteracoes, filter_alteracoesData]
          · simp [alteracoesCliente, alteracoesSimples, List.filter_append,
              filter_campoAlteracoes, filter_alteracoesData]
          · simp [alteracoesCliente, alteracoesSimples, List.filter_append,
              filter_campoAlteracoes, filter_alteracoesData]
          · simp [alteracoesCliente, alteracoesSimples, List.filter_append,
              filter_campoAlteracoes, filter_alteracoesData]
          · simp [alteracoesCliente, alteracoesSimples, List.filter_append,
              filter_campoAlteracoes, filter_alteracoesData]
          · simp [alteracoesCliente, alteracoesSimples, List.filter_append,
              filter_campoAlteracoes, filter_alteracoesData]
          · simp [alteracoesCliente, alteracoesSimples, List.filter_append,
              filter_campoAlteracoes, filter_alteracoesData]
          · simp [alteracoesCliente, alteracoesSimples, List.filter_append,
              filter_campoAlteracoes, filter_alteracoesData]
          · simp [alteracoesCliente, alteracoesSimples, List.filter_append,
              filter_campoAlteracoes, filter_alteracoesData]
          · exact rotulos_cobertos a p (alteracoesData a s0 d)
              (fun alt halt => mem_alteracoesData halt)

/-! ## Idempotence of the per-field contract -/

theorem campoAtualizado_idem (novo atual : Option String) :
    campoAtualizado novo (campoAtualizado novo atual) = campoAtualizado novo atual := by
  cases novo <;> rfl

theorem campoAtualizado_getD_idem (novo : Option String) (st : String) :
    (campoAtualizado novo (some ((campoAtualizado novo (some st)).getD st))).getD
      ((campoAtualizado novo (some st)).getD st) =
      (campoAtualizado novo (some st)).getD st := by
  cases novo <;> rfl

theorem campoAlteracoes_aplicado (lbl : String) (novo atual : Option String) :
    campoAlteracoes lbl novo (campoAtualizado novo atual) = [] := by
  cases novo <;> simp [campoAlteracoes, campoAtualizado]

theorem campoAlteracoes_aplicado_getD (lbl : String) (novo : Option String) (st : String) :
    campoAlteracoes lbl novo (some ((campoAtualizado novo (some st)).getD st)) = [] := by
  cases novo <;> simp [campoAlteracoes, campoAtualizado]

theorem clienteAtualizado_resultado (a : Avaliacao) (p : AvaliacaoUpdateSchema) (d : Date) :
    clienteAtualizado (resultadoCampos a p d) p = clienteAtualizado a p := by
  cases hc : p.cliente_nome <;>
    simp [clienteAtualizado, campoAtualizado, resultadoCampos, hc]

theorem alteracoesCliente_resultado (a : Avaliacao) (p : AvaliacaoUpdateSchema) (d : Date) :
    alteracoesCliente (resultadoCampos a p d) p = [] := by
  cases hc : p.cliente_nome <;>
    simp [alteracoesCliente, campoAlteracoes, clienteAtualizado, campoAtualizado,
      resultadoCampos, hc]

theorem alteracoesSimples_resultado (a : Avaliacao) (p : AvaliacaoUpdateSchema) (d : Date) :
    alteracoesSimples (resultadoCampos a p d) p = [] := by
  simp [alteracoesSimples, resultadoCampos, campoAlteracoes_aplicado,
    campoAlteracoes_aplicado_getD]

theorem resultadoCampos_idem (a : Avaliacao) (p : AvaliacaoUpdateSchema) (d : Date) :
    resultadoCampos (resultadoCampos a p d) p d = resultadoCampos a p d := by
  have hcl := clienteAtualizado_resultado a p d
  simp only [resultadoCampos] at hcl ⊢
  simp [Avaliacao.mk.injEq, campoAtualizado_idem, campoAtualizado_getD_idem, hcl]

/-! ## Lookup and substitution -/

theorem find_substituir (lista : List Avaliacao) (alvo : Nat) (a novo : Avaliacao)
    (h : lista.find? (fun x => x.id == alvo) = some a) (hid : novo.id = a.id) :
    (substituirAvaliacao lista novo).find? (fun x => x.id == alvo) = some novo := by
  induction lista with
  | nil => simp [List.find?] at h
  | cons x xs ih =>
      by_cases hx : (x.id == alvo) = true
      · simp only [List.find?, hx] at h
        injection h with hxa
        subst hxa
        simp only [substituirAvaliacao, List.map_cons]
        rw [if_pos hid.symm]
        simp only [List.find?]
        have hnovo : (novo.id == alvo) = true := by rw [hid]; exact hx
        simp only [hnovo]
      · rw [Bool.not_eq_true] at hx
        simp only [List.find?, hx] at h
        have ha : (a.id == alvo) = true := by simpa using List.find?_some h
        have hxn : ¬ x.id = novo.id := by
          rw [hid]
          intro hcontra
          rw [hcontra] at hx
          rw [ha] at hx
          cases hx
        simp only [substituirAvaliacao, List.map_cons, if_neg hxn]
        simp only [List.find?, hx]
        exact ih h

theorem substituir_idem (lista : List Avaliacao) (novo : Avaliacao) :
    substituirAvaliacao (substituirAvaliacao lista novo) novo =
      substituirAvaliacao lista novo := by
  simp only [substituirAvaliacao, List.map_map]
  apply List.map_congr_left
  intro x _
  by_cases hx : x.id = novo.id
  · simp [hx]
  · simp [hx]

/-! ## Characterisation of the update endpoint -/

theorem atualizar_commits_ok (db : BancoAvaliacoes) (avaliacao_id : Nat)
    (p : AvaliacaoUpdateSchema) (a r : Avaliacao) (alts : List Alteracao)
    (hf : db.avaliacoes.find? (fun x => x.id == avaliacao_id) = some a)
    (hc : atualizar_avaliacao_core a p = .ok (r, alts)) :
    atualizar_avaliacao_commits db avaliacao_id p =
      .ok ([{ db with avaliacoes := substituirAvaliacao db.avaliacoes r },
            { db with
              avaliacoes := substituirAvaliacao db.avaliacoes r
              auditoria := db.auditoria ++
                [⟨r.id, "sistema", "EDITAR", detalheLog alts⟩] }], r) := by
  unfold atualizar_avaliacao_commits
  simp only [hf, hc]

theorem atualizar_ok_dados (db : BancoAvaliacoes) (avaliacao_id : Nat)
    (p : AvaliacaoUpdateSchema) (a r : Avaliacao) (alts : List Alteracao)
    (hf : db.avaliacoes.find? (fun x => x.id == avaliacao_id) = some a)
    (hc : atualizar_avaliacao_core a p = .ok (r, alts)) :
    atualizar_avaliacao db avaliacao_id p =
      (.ok r,
       { db with
         avaliacoes := substituirAvaliacao db.avaliacoes r
         auditoria := db.auditoria ++
           [⟨r.id, "sistema", "EDITAR", detalheLog alts⟩] }) := by
  unfold atualizar_avaliacao
  rw [atualizar_commits_ok db avaliacao_id p a r alts hf hc]
  rfl

theorem atualizar_naoencontrado (db : BancoAvaliacoes) (avaliacao_id : Nat)
    (p : AvaliacaoUpdateSchema)
    (hf : db.avaliacoes.find? (fun x => x.id == avaliacao_id) = none) :
    atualizar_avaliacao db avaliacao_id p = (.error 404, db) := by
  unfold atualizar_avaliacao atualizar_avaliacao_commits
  rw [hf]

theorem atualizar_erro_dados (db : BancoAvaliacoes) (avaliacao_id : Nat)
    (p : AvaliacaoUpdateSchema) (a : Avaliacao) (e : Nat)
    (hf : db.avaliacoes.find? (fun x => x.id == avaliacao_id) = some a)
    (hc : atualizar_avaliacao_core a p = .error e) :
    atualizar_avaliacao db avaliacao_id p = (.error e, db) := by
  unfold atualizar_avaliacao atualizar_avaliacao_commits
  simp only [hf, hc]

theorem atualizar_ok_elim (db : BancoAvaliacoes) (avaliacao_id : Nat)
    (p : AvaliacaoUpdateSchema) (r : Avaliacao) (db' : BancoAvaliacoes)
    (h : atualizar_avaliacao db avaliacao_id p = (.ok r, db')) :
    ∃ a alts, db.avaliacoes.find? (fun x => x.id == avaliacao_id) = some a ∧
      atualizar_avaliacao_core a p = .ok (r, alts) ∧
      db' = { db with
        avaliacoes := substituirAvaliacao db.avaliacoes r
        auditoria := db.auditoria ++
          [⟨r.id, "sistema", "EDITAR", detalheLog alts⟩] } := by
  cases hf : db.avaliacoes.find? (fun x => x.id == avaliacao_id) with
  | none =>
      rw [atualizar_naoencontrado db avaliacao_id p hf] at h
      simp at h
  | some a =>
      cases hc : atualizar_avaliacao_core a p with
      | error e =>
          rw [atualizar_erro_dados db avaliacao_id p a e hf hc] at h
          simp at h
      | ok par =>
          obtain ⟨r0, alts0⟩ := par
          rw [atualizar_ok_dados db avaliacao_id p a r0 alts0 hf hc] at h
          rw [Prod.mk.injEq, Except.ok.injEq] at h
          obtain ⟨hr, hdb⟩ := h
          subst hr
          exact ⟨a, alts0, rfl, hc, hdb.symm⟩

/-! ## Concrete fixtures used by witnesses and counterexamples -/

def avaliacaoExemplo : Avaliacao :=
  { id := 1
    equipe := none
    responsavel_avaliacao := none
    tipo_formulario := none
    cliente_nome := "ACME"
    objeto := none
    «local» := none
    data_avaliacao := ⟨2024, 3, 1⟩
    contato := none
    email_cliente := none
    escopo_texto := none
    status := "aberto" }

def payloadVazio : AvaliacaoUpdateSchema :=
  { tipo_formulario := none
    cliente_nome := none
    data_avaliacao := none
    «local» := none
    objeto := none
    status := none
    equipe := none
    responsavel_avaliacao := none
    contato := none
    email_cliente := none
    escopo_texto := none }

def payloadStatusAprovado : AvaliacaoUpdateSchema :=
  { payloadVazio with status := some ("aprovado") }

def payloadDataInvalida : AvaliacaoUpdateSchema :=
  { payloadVazio with
    cliente_nome := some ("ACME Industrial")
    data_avaliacao := some ("01/03/2024") }

def bancoVazio : BancoAvaliacoes :=
  { avaliacoes := []
    equipamentos := []
    outros_recursos := []
    auditoria := []
    proximo_id_avaliacao := 1
    proximo_id_equipamento := 1
    proximo_id_recurso := 1 }

def bancoExemplo : BancoAvaliacoes :=
  { bancoVazio with avaliacoes := [avaliacaoExemplo], proximo_id_avaliacao := 2 }

def criarExemplo : AvaliacaoCreateSchema :=
  { cliente_nome := "ACME"
    data_avaliacao := ⟨2024, 3, 1⟩
    «local» := none
    objeto := none
    status := some ("aberto")
    tipo_formulario := none
    equipe := none
    responsavel_avaliacao := none
    contato := none
    email_cliente := none
    escopo_texto := none }

def aprovadoExemplo : Avaliacao := { avaliacaoExemplo with status := "aprovado" }

def alteracaoStatusExemplo : Alteracao :=
  ⟨("status"), some ("aberto"), some ("aprovado")⟩

def bancoAposAprovado : BancoAvaliacoes :=
  { bancoExemplo with
    avaliacoes := [aprovadoExemplo]
    auditoria := [⟨1, "sistema", "EDITAR", detalheLog [alteracaoStatusExemplo]⟩] }

/-! ## Claims -/

theorem claim_C2_witness :
    atualizar_avaliacao_core avaliacaoExemplo payloadStatusAprovado =
      Except.ok (aprovadoExemplo, [alteracaoStatusExemplo]) ∧
    List.filter (fun alt => alt.campo == "status") [alteracaoStatusExemplo] =
      campoAlteracoes ("status") payloadStatusAprovado.status (some avaliacaoExemplo.status) :=
  ⟨rfl, (claim_C2 avaliacaoExemplo payloadStatusAprovado aprovadoExemplo
      [alteracaoStatusExemplo] rfl).2.2.2.2.1.1⟩

/-- Claim C4: an update payload whose date text does not parse against the
strict YYYY-MM-DD format makes PUT /avaliacoes/(id) fail with the 400
validation error before anything is committed: the returned state is the
untouched input state (no field mutation persisted, no audit event
appended), even when other fields of the payload carry changed values. -/
theorem claim_C4 (db : BancoAvaliacoes) (avaliacao_id : Nat)
    (p : AvaliacaoUpdateSchema) (a : Avaliacao) (s : String)
    (hf : db.avaliacoes.find? (fun x => x.id == avaliacao_id) = some a)
    (hs : p.data_avaliacao = some s) (hbad : strptimeYmd s = none) :
    atualizar_avaliacao db avaliacao_id p = (.error 400, db) :=
  atualizar_erro_dados db avaliacao_id p a 400 hf (core_data_bad a p s hs hbad)

theorem claim_C4_witness :
    bancoExemplo.avaliacoes.find? (fun x => x.id == 1) = some avaliacaoExemplo ∧
    payloadDataInvalida.data_avaliacao = some ("01/03/2024") ∧
    strptimeYmd ("01/03/2024") = none ∧
    atualizar_avaliacao bancoExemplo 1 payloadDataInvalida = (.error 400, bancoExemplo) :=
  ⟨rfl, rfl, rfl,
   claim_C4 bancoExemplo 1 payloadDataInvalida avaliacaoExemplo ("01/03/2024") rfl rfl rfl⟩

/-- Second-call form of the diffing body: running the core again on the
record it produced, with the same payload, succeeds and reports an empty
change list. -/
theorem core_segunda_chamada (a r1 : Avaliacao) (p : AvaliacaoUpdateSchema)
    (alts : List Alteracao)
    (hc : atualizar_avaliacao_core a p = .ok (r1, alts)) :
    atualizar_avaliacao_core r1 p = .ok (r1, []) ∧ r1.id = a.id := by
  cases hpd : p.data_avaliacao with
  | none =>
      rw [core_data_none a p hpd, Except.ok.injEq, Prod.mk.injEq] at hc
      obtain ⟨hr, _⟩ := hc
      subst hr
      constructor
      · rw [core_data_none _ p hpd]
        rw [alteracoesCliente_resultado, alteracoesSimples_resultado]
        have hdata : (resultadoCampos a p a.data_avaliacao).data_avaliacao =
            a.data_avaliacao := rfl
        rw [hdata, resultadoCampos_idem]
        rfl
      · rfl
  | some s0 =>
      cases hd : strptimeYmd s0 with
      | none =>
          rw [core_data_bad a p s0 hpd hd] at hc
          cases hc
      | some d =>
          rw [core_data_some a p s0 d hpd hd, Except.ok.injEq, Prod.mk.injEq] at hc
          obtain ⟨hr, _⟩ := hc
          subst hr
          constructor
          · rw [core_data_some _ p s0 d hpd hd]
            rw [alteracoesCliente_resultado, alteracoesSimples_resultado,
              resultadoCampos_idem]
            have hzero : alteracoesData (resultadoCampos a p d) s0 d = [] := by
              simp [alteracoesData, resultadoCampos]
            rw [hzero]
            rfl
          · rfl

/-- Claim C3: applying the same update payload twice through
PUT /avaliacoes/(id): the first successful call appends one EDITAR audit
event whose detail is the JSON rendering of the change list whenever any
field changed; the second call still persists (a no-op write over the same
rows), returns the same record, leaves the stored records exactly as after
the first call, and appends an audit event whose detail is the fixed
"no changes" message rather than an empty change list. -/
theorem claim_C3 (db : BancoAvaliacoes) (avaliacao_id : Nat)
    (p : AvaliacaoUpdateSchema) (r1 : Avaliacao) (db1 : BancoAvaliacoes)
    (h : atualizar_avaliacao db avaliacao_id p = (.ok r1, db1)) :
    (∃ alts1, db1.auditoria = db.auditoria ++
        [⟨r1.id, "sistema", "EDITAR", detalheLog alts1⟩] ∧
      (alts1 ≠ [] → detalheLog alts1 = alteracoesJson alts1)) ∧
    (∃ db2, atualizar_avaliacao db1 avaliacao_id p = (.ok r1, db2) ∧
      db2.avaliacoes = db1.avaliacoes ∧
      db2.auditoria = db1.auditoria ++
        [⟨r1.id, "sistema", "EDITAR", detalheSemAlteracoes⟩]) := by
  obtain ⟨a, alts, hf, hc, hdb⟩ := atualizar_ok_elim db avaliacao_id p r1 db1 h
  subst hdb
  obtain ⟨hc2, hid⟩ := core_segunda_chamada a r1 p alts hc
  constructor
  · refine ⟨alts, rfl, fun hne => ?_⟩
    unfold detalheLog
    rw [if_neg]
    simpa using hne
  · have hf2 : (substituirAvaliacao db.avaliacoes r1).find?
        (fun x => x.id == avaliacao_id) = some r1 :=
      find_substituir db.avaliacoes avaliacao_id a r1 hf hid
    refine ⟨_, atualizar_ok_dados _ avaliacao_id p r1 r1 [] hf2 hc2, ?_, rfl⟩
    exact substituir_idem db.avaliacoes r1

theorem claim_C3_witness :
    atualizar_avaliacao bancoExemplo 1 payloadStatusAprovado =
      (.ok aprovadoExemplo, bancoAposAprovado) ∧
    (∃ db2, atualizar_avaliacao bancoAposAprovado 1 payloadStatusAprovado =
        (.ok aprovadoExemplo, db2) ∧
      db2.avaliacoes = bancoAposAprovado.avaliacoes ∧
      db2.auditoria = bancoAposAprovado.auditoria ++
        [⟨aprovadoExemplo.id, "sistema", "EDITAR", detalheSemAlteracoes⟩]) :=
  ⟨rfl, (claim_C3 bancoExemplo 1 payloadStatusAprovado aprovadoExemplo
      bancoAposAprovado rfl).2⟩

theorem atualizar_commits_elim (db : BancoAvaliacoes) (avaliacao_id : Nat)
    (p : AvaliacaoUpdateSchema) (commits : List BancoAvaliacoes) (r : Avaliacao)
    (h : atualizar_avaliacao_commits db avaliacao_id p = .ok (commits, r)) :
    ∃ a alts, db.avaliacoes.find? (fun x => x.id == avaliacao_id) = some a ∧
      atualizar_avaliacao_core a p = .ok (r, alts) ∧
      commits = [{ db with avaliacoes := substituirAvaliacao db.avaliacoes r },
                 { db with
                   avaliacoes := substituirAvaliacao db.avaliacoes r
                   auditoria := db.auditoria ++
                     [⟨r.id, "sistema", "EDITAR", detalheLog alts⟩] }] := by
  cases hf : db.avaliacoes.find? (fun x => x.id == avaliacao_id) with
  | none =>
      unfold atualizar_avaliacao_commits at h
      simp only [hf] at h
      exact Except.noConfusion h
  | some a =>
      cases hc : atualizar_avaliacao_core a p with
      | error e =>
          unfold atualizar_avaliacao_commits at h
          simp only [hf, hc] at h
          exact Except.noConfusion h
      | ok par =>
          obtain ⟨r0, alts0⟩ := par
          rw [atualizar_commits_ok db avaliacao_id p a r0 alts0 hf hc] at h
          rw [Except.ok.injEq, Prod.mk.injEq] at h
          obtain ⟨hcm, hr⟩ := h
          subst hr
          exact ⟨a, alts0, rfl, hc, hcm.symm⟩

/-- Claim C1 (counterexample): the data mutation and its paired audit append
are not committed in one transaction.  `criar_avaliacao` commits the new
record first and only then, in a second transaction, commits the CRIAR audit
row, so the state after the first commit — the state that persists when a
failure hits between the two commits — holds the record with no audit event
for it.  Exhibited on the empty database and a concrete create payload. -/
theorem claim_C1_counterexample :
    ∃ s, s ∈ (criar_avaliacao_commits bancoVazio criarExemplo).1 ∧
      ∃ a, a ∈ s.avaliacoes ∧ ∀ log ∈ s.auditoria, log.avaliacao_id ≠ a.id := by
  refine ⟨{ bancoVazio with
      avaliacoes := [(criar_avaliacao_commits bancoVazio criarExemplo).2]
      proximo_id_avaliacao := 2 }, ?_, ?_⟩
  · simp [criar_avaliacao_commits, bancoVazio, criarExemplo]
  · exact ⟨(criar_avaliacao_commits bancoVazio criarExemplo).2, by simp,
      by simp [bancoVazio]⟩

/-- Claim C1 (amended): each mutating operation on an assessment record —
create, update, add equipment, remove equipment, add resource, remove
resource — commits its data mutation and its audit-event append in two
separate, consecutive transactions.  The final state holds both the data
change and its audit event, but the intermediate committed state — the
reachable post-state when a failure occurs after the data commit and before
the audit commit — holds the data change with no new audit row. -/
theorem claim_C1_amended (db : BancoAvaliacoes) (pc : AvaliacaoCreateSchema)
    (avaliacao_id : Nat) (pu : AvaliacaoUpdateSchema)
    (pe : EquipamentoBaseSchema) (pr : OutroRecursoBaseSchema)
    (equipamento_id recurso_id : Nat) :
    (∃ s1 s2 a, criar_avaliacao_commits db pc = ([s1, s2], a) ∧
       a ∈ s1.avaliacoes ∧ s1.auditoria = db.auditoria ∧
       s2 = { s1 with auditoria := s1.auditoria ++
         [⟨a.id, "sistema", "CRIAR", "Avaliação criada via API"⟩] }) ∧
    (∀ commits r, atualizar_avaliacao_commits db avaliacao_id pu = .ok (commits, r) →
       ∃ s1 s2 log, commits = [s1, s2] ∧ s1.auditoria = db.auditoria ∧
         log.avaliacao_id = r.id ∧ log.usuario = "sistema" ∧ log.acao = "EDITAR" ∧
         s2 = { s1 with auditoria := s1.auditoria ++ [log] }) ∧
    (∀ commits e, adicionar_equipamento_commits db avaliacao_id pe = .ok (commits, e) →
       ∃ s1 s2, commits = [s1, s2] ∧
         s1.equipamentos = db.equipamentos ++ [e] ∧ s1.auditoria = db.auditoria ∧
         ∃ log, log.usuario = "sistema" ∧ log.acao = "ADD_EQUIPAMENTO" ∧
           s2 = { s1 with auditoria := s1.auditoria ++ [log] }) ∧
    (∀ commits, remover_equipamento_commits db equipamento_id = .ok commits →
       ∃ s1 s2, commits = [s1, s2] ∧
         s1.equipamentos = db.equipamentos.filter (fun e => e.id != equipamento_id) ∧
         s1.auditoria = db.auditoria ∧
         ∃ log, log.usuario = "sistema" ∧ log.acao = "REMOVER_EQUIPAMENTO" ∧
           s2 = { s1 with auditoria := s1.auditoria ++ [log] }) ∧
    (∀ commits rec, adicionar_outro_recurso_commits db avaliacao_id pr = .ok (commits, rec) →
       ∃ s1 s2, commits = [s1, s2] ∧
         s1.outros_recursos = db.outros_recursos ++ [rec] ∧ s1.auditoria = db.auditoria ∧
         ∃ log, log.usuario = "sistema" ∧ log.acao = "ADD_OUTRO_RECURSO" ∧
           s2 = { s1 with auditoria := s1.auditoria ++ [log] }) ∧
    (∀ commits, remover_outro_recurso_commits db recurso_id = .ok commits →
       ∃ s1 s2, commits = [s1, s2] ∧
         s1.outros_recursos = db.outros_recursos.filter (fun r => r.id != recurso_id) ∧
         s1.auditoria = db.auditoria ∧
         ∃ log, log.usuario = "sistema" ∧ log.acao = "REMOVER_OUTRO_RECURSO" ∧
           s2 = { s1 with auditoria := s1.auditoria ++ [log] }) := by
  refine ⟨?_, ?_, ?_, ?_, ?_, ?_⟩
  · refine ⟨_, _, _, rfl, ?_, rfl, rfl⟩
    simp [criar_avaliacao_commits]
  · intro commits r h
    obtain ⟨a, alts, hf, hc, hcm⟩ :=
      atualizar_commits_elim db avaliacao_id pu commits r h
    subst hcm
    exact ⟨_, _, ⟨r.id, "sistema", "EDITAR", detalheLog alts⟩,
      rfl, rfl, rfl, rfl, rfl, rfl⟩
  · intro commits e h
    cases hf : db.avaliacoes.find? (fun x => x.id == avaliacao_id) with
    | none =>
        unfold adicionar_equipamento_commits at h
        simp only [hf] at h
        exact Except.noConfusion h
    | some a =>
        unfold adicionar_equipamento_commits at h
        simp only [hf] at h
        rw [Except.ok.injEq, Prod.mk.injEq] at h
        obtain ⟨hcm, he⟩ := h
        subst he
        subst hcm
        exact ⟨_, _, rfl, rfl, rfl,
          ⟨a.id, "sistema", "ADD_EQUIPAMENTO", equipamentoAddJson pe⟩, rfl, rfl, rfl⟩
  · intro commits h
    cases hf : db.equipamentos.find? (fun x => x.id == equipamento_id) with
    | none =>
        unfold remover_equipamento_commits at h
        simp only [hf] at h
        exact Except.noConfusion h
    | some eq =>
        unfold remover_equipamento_commits at h
        simp only [hf] at h
        rw [Except.ok.injEq] at h
        subst h
        exact ⟨_, _, rfl, rfl, rfl,
          ⟨eq.avaliacao_id, "sistema", "REMOVER_EQUIPAMENTO", equipamentoRemJson eq⟩,
          rfl, rfl, rfl⟩
  · intro commits rec h
    cases hf : db.avaliacoes.find? (fun x => x.id == avaliacao_id) with
    | none =>
        unfold adicionar_outro_recurso_commits at h
        simp only [hf] at h
        exact Except.noConfusion h
    | some a =>
        unfold adicionar_outro_recurso_commits at h
        simp only [hf] at h
        rw [Except.ok.injEq, Prod.mk.injEq] at h
        obtain ⟨hcm, he⟩ := h
        subst he
        subst hcm
        exact ⟨_, _, rfl, rfl, rfl,
          ⟨a.id, "sistema", "ADD_OUTRO_RECURSO", recursoAddJson pr⟩, rfl, rfl, rfl⟩
  · intro commits h
    cases hf : db.outros_recursos.find? (fun x => x.id == recurso_id) with
    | none =>
        unfold remover_outro_recurso_commits at h
        simp only [hf] at h
        exact Except.noConfusion h
    | some rec =>
        unfold remover_outro_recurso_commits at h
        simp only [hf] at h
        rw [Except.ok.injEq] at h
        subst h
        exact ⟨_, _, rfl, rfl, rfl,
          ⟨rec.avaliacao_id, "sistema", "REMOVER_OUTRO_RECURSO", recursoRemJson rec⟩,
          rfl, rfl, rfl⟩

def equipamentoPayloadExemplo : EquipamentoBaseSchema :=
  { equipamento := "Switch 24 portas", modelo := none, quantidade := 1, fabricante := none }

def recursoPayloadExemplo : OutroRecursoBaseSchema :=
  { descricao := "Almoço", quantidade := 2 }

def equipamentoExemploRow : AvaliacaoEquipamento :=
  { id := 1
    avaliacao_id := 1
    equipamento := "Switch 24 portas"
    modelo := none
    quantidade := 1
    fabricante := none }

def bancoComEquipamento : BancoAvaliacoes :=
  { bancoExemplo with
    equipamentos := [equipamentoExemploRow]
    proximo_id_equipamento := 2 }

def bancoComEquipamentoAud : BancoAvaliacoes :=
  { bancoComEquipamento with
    auditoria :=
      [⟨1, "sistema", "ADD_EQUIPAMENTO", equipamentoAddJson equipamentoPayloadExemplo⟩] }

theorem claim_C1_amended_witness :
    atualizar_avaliacao_commits bancoExemplo 1 payloadStatusAprovado =
      .ok ([{ bancoExemplo with avaliacoes := [aprovadoExemplo] },
            bancoAposAprovado], aprovadoExemplo) ∧
    (∃ s1 s2 log,
       [{ bancoExemplo with avaliacoes := [aprovadoExemplo] }, bancoAposAprovado] =
         [s1, s2] ∧
       s1.auditoria = bancoExemplo.auditoria ∧
       log.avaliacao_id = aprovadoExemplo.id ∧ log.usuario = "sistema" ∧
       log.acao = "EDITAR" ∧
       s2 = { s1 with auditoria := s1.auditoria ++ [log] }) ∧
    adicionar_equipamento_commits bancoExemplo 1 equipamentoPayloadExemplo =
      .ok ([bancoComEquipamento, bancoComEquipamentoAud], equipamentoExemploRow) ∧
    (∃ s1 s2, [bancoComEquipamento, bancoComEquipamentoAud] = [s1, s2] ∧
       s1.equipamentos = bancoExemplo.equipamentos ++ [equipamentoExemploRow] ∧
       s1.auditoria = bancoExemplo.auditoria ∧
       ∃ log, log.usuario = "sistema" ∧ log.acao = "ADD_EQUIPAMENTO" ∧
         s2 = { s1 with auditoria := s1.auditoria ++ [log] }) :=
  ⟨rfl,
   (claim_C1_amended bancoExemplo criarExemplo 1 payloadStatusAprovado
       equipamentoPayloadExemplo recursoPayloadExemplo 1 1).2.1 _ aprovadoExemplo rfl,
   rfl,
   (claim_C1_amended bancoExemplo criarExemplo 1 payloadStatusAprovado
       equipamentoPayloadExemplo recursoPayloadExemplo 1 1).2.2.1
     _ equipamentoExemploRow rfl⟩

/-- The active-only lookup returns nothing when every account holding the
handle is inactive. -/
theorem obter_nenhum_ativo (db : List Usuario) (username : String)
    (hall : ∀ u ∈ db, u.username = username → u.ativo = false) :
    obter_usuario_por_username db username = none := by
  unfold obter_usuario_por_username
  cases hf : db.find? (fun u => u.username == username && u.ativo) with
  | none => rfl
  | some w =>
      have hmem : w ∈ db := List.mem_of_find?_eq_some hf
      have hw : (w.username == username && w.ativo) = true := by
        simpa using List.find?_some hf
      rw [Bool.and_eq_true] at hw
      obtain ⟨hwn, hwa⟩ := hw
      have hwn' : w.username = username := by simpa using hwn
      rw [hall w hmem hwn'] at hwa
      cases hwa

theorem obter_ativo (db : List Usuario) (username : String) (u : Usuario)
    (h : obter_usuario_por_username db username = some u) : u.ativo = true := by
  unfold obter_usuario_por_username at h
  have hw : (u.username == username && u.ativo) = true := by
    simpa using List.find?_some h
  rw [Bool.and_eq_true] at hw
  exact hw.2

/-- Claim C5: `autenticar_usuario` returns an account exactly when the
handle resolves (through the active-only lookup) to that account and the
password verifies against its stored hash; consequently it returns none
when the password fails verification against the resolved account's hash,
and none when every account holding the handle is inactive, no matter the
supplied password. -/
theorem claim_C5 (db : List Usuario) (username senha : String) :
    (∀ u, autenticar_usuario db username senha = some u ↔
      (obter_usuario_por_username db username = some u ∧
        verificar_senha senha u.senha_hash = true)) ∧
    (∀ u, obter_usuario_por_username db username = some u → u.ativo = true) ∧
    (∀ u, obter_usuario_por_username db username = some u →
      verificar_senha senha u.senha_hash = false →
      autenticar_usuario db username senha = none) ∧
    ((∀ u ∈ db, u.username = username → u.ativo = false) →
      autenticar_usuario db username senha = none) := by
  refine ⟨?_, ?_, ?_, ?_⟩
  · intro u
    constructor
    · intro h
      unfold autenticar_usuario at h
      cases hob : obter_usuario_por_username db username with
      | none => rw [hob] at h; cases h
      | some w =>
          simp only [hob] at h
          by_cases hv : verificar_senha senha w.senha_hash = true
          · simp only [hv, not_true_eq_false, if_neg, ite_false] at h
            simp at h
            subst h
            exact ⟨rfl, hv⟩
          · simp [hv] at h
    · rintro ⟨hob, hv⟩
      unfold autenticar_usuario
      rw [hob]
      simp [hv]
  · exact obter_ativo db username
  · intro u hob hv
    unfold autenticar_usuario
    rw [hob]
    simp [hv]
  · intro hall
    unfold autenticar_usuario
    rw [obter_nenhum_ativo db username hall]

def usuarioAtivoExemplo : Usuario :=
  { id := 2
    nome := "Alice"
    email := "alice@example.com"
    username := "alice"
    senha_hash := gerar_hash_senha ("Secret1")
    is_admin := false
    precisa_trocar_senha := true
    ativo := true }

def usuarioInativoExemplo : Usuario := { usuarioAtivoExemplo with id := 3, ativo := false }

theorem claim_C5_witness :
    obter_usuario_por_username [usuarioAtivoExemplo] ("alice") = some usuarioAtivoExemplo ∧
    verificar_senha ("errada") usuarioAtivoExemplo.senha_hash = false ∧
    autenticar_usuario [usuarioAtivoExemplo] ("alice") ("errada") = none ∧
    (∀ u ∈ [usuarioInativoExemplo], u.username = ("alice") → u.ativo = false) ∧
    autenticar_usuario [usuarioInativoExemplo] ("alice") ("Secret1") = none :=
  ⟨rfl, rfl,
   (claim_C5 [usuarioAtivoExemplo] ("alice") ("errada")).2.2.1 usuarioAtivoExemplo rfl rfl,
   by decide,
   (claim_C5 [usuarioInativoExemplo] ("alice") ("Secret1")).2.2.2 (by decide)⟩

theorem obter_atual_sem_conta (db : List Usuario) (agora : Int) (t : JwtToken)
    (u : String) (hsub : t.payload.sub = some u)
    (hob : obter_usuario_por_username db u = none) :
    obter_usuario_atual db agora t = .error 401 := by
  by_cases hsig : t.assinatura = jwtSign SECRET_KEY t.payload
  · by_cases hexp : t.payload.exp < agora
    · simp [obter_usuario_atual, jwtDecode, hsig, hexp]
    · simp [obter_usuario_atual, jwtDecode, hsig, hexp, hsub, hob]
  · simp [obter_usuario_atual, jwtDecode, hsig]

/-- Claim C6: `obter_usuario_atual` answers the 401 credential error in
every failure case of the claim: an altered signature, a payload with no
subject, an expired token, a subject resolving to no account, and — because
the lookup itself filters on the active flag, so the handler's 403 branch
can never see an inactive account — a subject whose every matching account
is inactive also answers 401, not 403. -/
theorem claim_C6 (db : List Usuario) (agora : Int) (t : JwtToken) :
    (t.assinatura ≠ jwtSign SECRET_KEY t.payload →
      obter_usuario_atual db agora t = .error 401) ∧
    (t.payload.sub = none → obter_usuario_atual db agora t = .error 401) ∧
    (t.payload.exp < agora → obter_usuario_atual db agora t = .error 401) ∧
    (∀ u, t.payload.sub = some u → obter_usuario_por_username db u = none →
      obter_usuario_atual db agora t = .error 401) ∧
    (∀ u, t.payload.sub = some u →
      (∀ acct ∈ db, acct.username = u → acct.ativo = false) →
      obter_usuario_atual db agora t = .error 401) := by
  refine ⟨?_, ?_, ?_, ?_, ?_⟩
  · intro h
    simp [obter_usuario_atual, jwtDecode, h]
  · intro h
    by_cases hsig : t.assinatura = jwtSign SECRET_KEY t.payload
    · by_cases hexp : t.payload.exp < agora
      · simp [obter_usuario_atual, jwtDecode, hsig, hexp]
      · simp [obter_usuario_atual, jwtDecode, hsig, hexp, h]
    · simp [obter_usuario_atual, jwtDecode, hsig]
  · intro h
    by_cases hsig : t.assinatura = jwtSign SECRET_KEY t.payload
    · simp [obter_usuario_atual, jwtDecode, hsig, h]
    · simp [obter_usuario_atual, jwtDecode, hsig]
  · intro u hsub hob
    exact obter_atual_sem_conta db agora t u hsub hob
  · intro u hsub hall
    exact obter_atual_sem_conta db agora t u hsub (obter_nenhum_ativo db u hall)

def tokenAliceExemplo : JwtToken := criar_token_acesso (some ("alice")) 0 none

theorem claim_C6_witness :
    tokenAliceExemplo.payload.sub = some ("alice") ∧
    (∀ acct ∈ [usuarioInativoExemplo], acct.username = ("alice") → acct.ativo = false) ∧
    obter_usuario_atual [usuarioInativoExemplo] 0 tokenAliceExemplo = .error 401 :=
  ⟨rfl, by decide,
   (claim_C6 [usuarioInativoExemplo] 0 tokenAliceExemplo).2.2.2.2 ("alice") rfl (by decide)⟩

/-- Claim C7: on PATCH /usuarios/(id)/status called by an administrator,
targeting one's own account with `ativo = false` fails with 400 and returns
the untouched state (no flag change, no audit row); every other resolved
status change applies the new flag to the target and appends exactly one
account-scoped audit event whose action is ATIVAR_USUARIO or
DESATIVAR_USUARIO according to the new status, recorded as performed by the
calling administrator. -/
theorem claim_C7 (db : BancoUsuarios) (usuario_id : Nat)
    (payload : UsuarioStatusUpdateSchema) (admin usuario : Usuario)
    (hf : db.usuarios.find? (fun u => u.id == usuario_id) = some usuario) :
    (usuario.id = admin.id → payload.ativo = false →
      atualizar_status_usuario db usuario_id payload admin = (.error 400, db)) ∧
    (¬ (usuario.id = admin.id ∧ payload.ativo = false) →
      atualizar_status_usuario db usuario_id payload admin =
        (.ok { usuario with ativo := payload.ativo },
         { db with
           usuarios := substituirUsuario db.usuarios { usuario with ativo := payload.ativo }
           auditoria := db.auditoria ++
             [⟨usuario.id, some admin.id,
               (if payload.ativo then ("ATIVAR_USUARIO") else ("DESATIVAR_USUARIO")),
               some (statusUsuarioJson
                 (if payload.ativo then ("ATIVAR_USUARIO") else ("DESATIVAR_USUARIO"))
                 usuario.username)⟩] })) := by
  constructor
  · intro h1 h2
    unfold atualizar_status_usuario
    simp only [hf]
    rw [if_pos ⟨h1, h2⟩]
  · intro hneg
    unfold atualizar_status_usuario
    simp only [hf]
    rw [if_neg hneg]

def adminExemplo : Usuario :=
  { id := 1
    nome := "Administrador"
    email := "miguelribeiro.dev1@gmail.com"
    username := "admin"
    senha_hash := gerar_hash_senha ("admin123")
    is_admin := true
    precisa_trocar_senha := true
    ativo := true }

def bancoUsuariosExemplo : BancoUsuarios :=
  { usuarios := [adminExemplo, usuarioAtivoExemplo], auditoria := [] }

theorem claim_C7_witness :
    bancoUsuariosExemplo.usuarios.find? (fun u => u.id == 1) = some adminExemplo ∧
    adminExemplo.id = adminExemplo.id ∧ (false = false) ∧
    atualizar_status_usuario bancoUsuariosExemplo 1 ⟨false⟩ adminExemplo =
      (.error 400, bancoUsuariosExemplo) :=
  ⟨rfl, rfl, rfl,
   (claim_C7 bancoUsuariosExemplo 1 ⟨false⟩ adminExemplo adminExemplo rfl).1 rfl rfl⟩

/-- Claim C8 (counterexample): `listar_avaliacoes` issues its query with no
ORDER BY clause (unlike the user listing, which orders by ascending id), so
the rows come back in the database's storage order, which id-ascending
ordering does not constrain: on a table state whose storage order holds the
record with id 2 before the record with id 1, the listing with the default
pagination returns them in that order, which is not ascending by id. -/
theorem claim_C8_counterexample :
    listar_avaliacoes
        { bancoExemplo with
          avaliacoes := [{ avaliacaoExemplo with id := 2 }, avaliacaoExemplo]
          proximo_id_avaliacao := 3 } SKIP_PADRAO LIMIT_PADRAO =
      .ok [{ avaliacaoExemplo with id := 2 }, avaliacaoExemplo] ∧
    ¬ List.Pairwise (fun x y => x.id ≤ y.id)
        [{ avaliacaoExemplo with id := 2 }, avaliacaoExemplo] := by
  constructor
  · rfl
  · intro hpair
    rw [List.pairwise_cons] at hpair
    obtain ⟨hab, _⟩ := hpair
    have h21 := hab avaliacaoExemplo (by simp)
    simp [avaliacaoExemplo] at h21

/-- Claim C8 (amended): for non-negative parameters the listing applies the
offset and then the limit to the rows in the order the database returns
them, yielding a contiguous sub-sequence of the stored rows (so the order,
whatever the storage order is, is preserved) of length at most the limit;
the defaults are offset 0 and limit 100; and the handler performs no
validation of the two signed parameters — a negative offset or limit is not
rejected by the endpoint but forwarded to the database, whose refusal
surfaces as a persistence-layer error, not as a validation rejection. -/
theorem claim_C8_amended (db : BancoAvaliacoes) (skip limit : Int) :
    (0 ≤ skip → 0 ≤ limit →
      listar_avaliacoes db skip limit =
        .ok ((db.avaliacoes.drop skip.toNat).take limit.toNat) ∧
      ∃ rs, listar_avaliacoes db skip limit = .ok rs ∧
        List.Sublist rs db.avaliacoes ∧ rs.length ≤ limit.toNat) ∧
    (skip < 0 ∨ limit < 0 →
      ∃ msg, listar_avaliacoes db skip limit = .error msg) ∧
    SKIP_PADRAO = 0 ∧ LIMIT_PADRAO = 100 := by
  refine ⟨?_, ?_, rfl, rfl⟩
  · intro h1 h2
    have hs : ¬ skip < 0 := not_lt.mpr h1
    have hl : ¬ limit < 0 := not_lt.mpr h2
    unfold listar_avaliacoes
    rw [if_neg hs, if_neg hl]
    refine ⟨rfl, _, rfl, ?_, ?_⟩
    · exact ((db.avaliacoes.drop skip.toNat).take_sublist limit.toNat).trans
        (db.avaliacoes.drop_sublist skip.toNat)
    · exact List.length_take_le limit.toNat _
  · intro h
    rcases h with hs | hl
    · exact ⟨_, by unfold listar_avaliacoes; rw [if_pos hs]⟩
    · by_cases hs : skip < 0
      · exact ⟨_, by unfold listar_avaliacoes; rw [if_pos hs]⟩
      · exact ⟨_, by unfold listar_avaliacoes; rw [if_neg hs, if_pos hl]⟩

theorem claim_C8_amended_witness :
    (0 : Int) ≤ 0 ∧ (0 : Int) ≤ 100 ∧
    listar_avaliacoes bancoExemplo 0 100 =
      .ok ((bancoExemplo.avaliacoes.drop (0 : Int).toNat).take (100 : Int).toNat) ∧
    ((-1 : Int) < 0 ∨ (100 : Int) < 0) ∧
    (∃ msg, listar_avaliacoes bancoExemplo (-1) 100 = .error msg) :=
  ⟨le_refl 0, by norm_num,
   ((claim_C8_amended bancoExemplo 0 100).1 (le_refl 0) (by norm_num)).1,
   Or.inl (by norm_num),
   (claim_C8_amended bancoExemplo (-1) 100).2.1 (Or.inl (by norm_num))⟩

/-- Claim C9: issuing a token and verifying it immediately recovers the
original subject handle, both with the default lifetime and with any
positive explicit lifetime (the login endpoint passes the 8-hour default as
an explicit timedelta); a token whose signature does not match the key's
recomputation fails verification, as does a token whose expiry is in the
past (both surface as the credential error in the guard); and the default
lifetime constant is 8 hours. -/
theorem claim_C9 (sub : String) (agora : Int) (t : JwtToken) (delta : Int) :
    (jwtDecode SECRET_KEY agora (criar_token_acesso (some sub) agora none) =
      some ⟨some sub, agora + 8 * 60 * 60⟩) ∧
    (0 < delta →
      jwtDecode SECRET_KEY agora (criar_token_acesso (some sub) agora (some delta)) =
        some ⟨some sub, agora + delta⟩) ∧
    (t.assinatura ≠ jwtSign SECRET_KEY t.payload →
      jwtDecode SECRET_KEY agora t = none) ∧
    (t.payload.exp < agora → jwtDecode SECRET_KEY agora t = none) ∧
    ACCESS_TOKEN_EXPIRE_MINUTES = 60 * 8 ∧
    (criar_token_acesso (some sub) agora none).payload.exp = agora + 8 * 60 * 60 := by
  refine ⟨?_, ?_, ?_, ?_, rfl, ?_⟩
  · have hexp : ¬ ((agora + (ACCESS_TOKEN_EXPIRE_MINUTES : Int) * 60) < agora) := by
      simp [ACCESS_TOKEN_EXPIRE_MINUTES]
    simp [criar_token_acesso, jwtEncode, jwtDecode, hexp]
    norm_num [ACCESS_TOKEN_EXPIRE_MINUTES]
  · intro hpos
    have hdz : delta ≠ 0 := by omega
    have hexp : ¬ ((agora + delta) < agora) := by omega
    simp [criar_token_acesso, jwtEncode, jwtDecode, hdz, hexp]
  · intro h
    simp [jwtDecode, h]
  · intro h
    by_cases hsig : t.assinatura = jwtSign SECRET_KEY t.payload
    · simp [jwtDecode, hsig, h]
    · simp [jwtDecode, hsig]
  · simp [criar_token_acesso, jwtEncode, ACCESS_TOKEN_EXPIRE_MINUTES]

theorem claim_C9_witness :
    (0 : Int) < 28800 ∧
    jwtDecode SECRET_KEY 0 (criar_token_acesso (some ("admin")) 0 (some 28800)) =
      some ⟨some ("admin"), 0 + 28800⟩ :=
  ⟨by norm_num, (claim_C9 ("admin") 0 tokenAliceExemplo 28800).2.1 (by norm_num)⟩

/-! ## Elimination lemmas for the child-line endpoints -/

theorem adicionar_equipamento_ok_elim (db : BancoAvaliacoes) (avaliacao_id : Nat)
    (p : EquipamentoBaseSchema) (e : AvaliacaoEquipamento) (db' : BancoAvaliacoes)
    (h : adicionar_equipamento db avaliacao_id p = (.ok e, db')) :
    ∃ a, db.avaliacoes.find? (fun x => x.id == avaliacao_id) = some a ∧
      db' = { db with
        equipamentos := db.equipamentos ++
          [⟨db.proximo_id_equipamento, avaliacao_id, p.equipamento, p.modelo,
            p.quantidade, p.fabricante⟩]
        proximo_id_equipamento := db.proximo_id_equipamento + 1
        auditoria := db.auditoria ++
          [⟨a.id, "sistema", "ADD_EQUIPAMENTO", equipamentoAddJson p⟩] } := by
  cases hf : db.avaliacoes.find? (fun x => x.id == avaliacao_id) with
  | none =>
      unfold adicionar_equipamento adicionar_equipamento_commits at h
      simp only [hf] at h
      rw [Prod.mk.injEq] at h
      exact absurd h.1 (by simp)
  | some a =>
      unfold adicionar_equipamento adicionar_equipamento_commits at h
      simp only [hf] at h
      rw [Prod.mk.injEq] at h
      exact ⟨a, rfl, h.2.symm⟩

theorem remover_equipamento_ok_elim (db : BancoAvaliacoes) (equipamento_id : Nat)
    (db' : BancoAvaliacoes)
    (h : remover_equipamento db equipamento_id = (.ok (), db')) :
    ∃ eq, db.equipamentos.find? (fun e => e.id == equipamento_id) = some eq ∧
      db' = { db with
        equipamentos := db.equipamentos.filter (fun e => e.id != equipamento_id)
        auditoria := db.auditoria ++
          [⟨eq.avaliacao_id, "sistema", "REMOVER_EQUIPAMENTO", equipamentoRemJson eq⟩] } := by
  cases hf : db.equipamentos.find? (fun e => e.id == equipamento_id) with
  | none =>
      unfold remover_equipamento remover_equipamento_commits at h
      simp only [hf] at h
      rw [Prod.mk.injEq] at h
      exact absurd h.1 (by simp)
  | some eq =>
      unfold remover_equipamento remover_equipamento_commits at h
      simp only [hf] at h
      rw [Prod.mk.injEq] at h
      exact ⟨eq, rfl, h.2.symm⟩

theorem adicionar_outro_recurso_ok_elim (db : BancoAvaliacoes) (avaliacao_id : Nat)
    (p : OutroRecursoBaseSchema) (rec : AvaliacaoOutroRecurso) (db' : BancoAvaliacoes)
    (h : adicionar_outro_recurso db avaliacao_id p = (.ok rec, db')) :
    ∃ a, db.avaliacoes.find? (fun x => x.id == avaliacao_id) = some a ∧
      db' = { db with
        outros_recursos := db.outros_recursos ++
          [⟨db.proximo_id_recurso, avaliacao_id, p.descricao, p.quantidade⟩]
        proximo_id_recurso := db.proximo_id_recurso + 1
        auditoria := db.auditoria ++
          [⟨a.id, "sistema", "ADD_OUTRO_RECURSO", recursoAddJson p⟩] } := by
  cases hf : db.avaliacoes.find? (fun x => x.id == avaliacao_id) with
  | none =>
      unfold adicionar_outro_recurso adicionar_outro_recurso_commits at h
      simp only [hf] at h
      rw [Prod.mk.injEq] at h
      exact absurd h.1 (by simp)
  | some a =>
      unfold adicionar_outro_recurso adicionar_outro_recurso_commits at h
      simp only [hf] at h
      rw [Prod.mk.injEq] at h
      exact ⟨a, rfl, h.2.symm⟩

theorem remover_outro_recurso_ok_elim (db : BancoAvaliacoes) (recurso_id : Nat)
    (db' : BancoAvaliacoes)
    (h : remover_outro_recurso db recurso_id = (.ok (), db')) :
    ∃ rec, db.outros_recursos.find? (fun r => r.id == recurso_id) = some rec ∧
      db' = { db with
        outros_recursos := db.outros_recursos.filter (fun r => r.id != recurso_id)
        auditoria := db.auditoria ++
          [⟨rec.avaliacao_id, "sistema", "REMOVER_OUTRO_RECURSO", recursoRemJson rec⟩] } := by
  cases hf : db.outros_recursos.find? (fun r => r.id == recurso_id) with
  | none =>
      unfold remover_outro_recurso remover_outro_recurso_commits at h
      simp only [hf] at h
      rw [Prod.mk.injEq] at h
      exact absurd h.1 (by simp)
  | some rec =>
      unfold remover_outro_recurso remover_outro_recurso_commits at h
      simp only [hf] at h
      rw [Prod.mk.injEq] at h
      exact ⟨rec, rfl, h.2.symm⟩

/-- Claim C10: none of the assessment-record routes names an authentication
dependency — each handler takes only the database session, so no bearer
token is read, the request is accepted without one, the result cannot
depend on any token supplied, and the guard's 401/403 outcomes are
unreachable on these routes; and every record-scoped audit event the
mutating handlers append carries the fixed acting-identity label "sistema"
regardless of the caller. -/
theorem claim_C10 :
    (∀ rota ∈ rotasAvaliacoes, rota.dependencias = [Dependencia.banco]) ∧
    (∀ db p, ∃ novos, ((criar_avaliacao db p).1).auditoria = db.auditoria ++ novos ∧
       ∀ log ∈ novos, log.usuario = "sistema") ∧
    (∀ db i p r db', atualizar_avaliacao db i p = (.ok r, db') →
       ∃ novos, db'.auditoria = db.auditoria ++ novos ∧
         ∀ log ∈ novos, log.usuario = "sistema") ∧
    (∀ db i p e db', adicionar_equipamento db i p = (.ok e, db') →
       ∃ novos, db'.auditoria = db.auditoria ++ novos ∧
         ∀ log ∈ novos, log.usuario = "sistema") ∧
    (∀ db i db', remover_equipamento db i = (.ok (), db') →
       ∃ novos, db'.auditoria = db.auditoria ++ novos ∧
         ∀ log ∈ novos, log.usuario = "sistema") ∧
    (∀ db i p rec db', adicionar_outro_recurso db i p = (.ok rec, db') →
       ∃ novos, db'.auditoria = db.auditoria ++ novos ∧
         ∀ log ∈ novos, log.usuario = "sistema") ∧
    (∀ db i db', remover_outro_recurso db i = (.ok (), db') →
       ∃ novos, db'.auditoria = db.auditoria ++ novos ∧
         ∀ log ∈ novos, log.usuario = "sistema") := by
  refine ⟨by decide, ?_, ?_, ?_, ?_, ?_, ?_⟩
  · intro db p
    exact ⟨[⟨(criar_avaliacao_commits db p).2.id, "sistema", "CRIAR",
      "Avaliação criada via API"⟩], rfl, by simp⟩
  · intro db i p r db' h
    obtain ⟨a, alts, _, _, hdb⟩ := atualizar_ok_elim db i p r db' h
    subst hdb
    exact ⟨[⟨r.id, "sistema", "EDITAR", detalheLog alts⟩], rfl, by simp⟩
  · intro db i p e db' h
    obtain ⟨a, _, hdb⟩ := adicionar_equipamento_ok_elim db i p e db' h
    subst hdb
    exact ⟨[⟨a.id, "sistema", "ADD_EQUIPAMENTO", equipamentoAddJson p⟩], rfl, by simp⟩
  · intro db i db' h
    obtain ⟨eq, _, hdb⟩ := remover_equipamento_ok_elim db i db' h
    subst hdb
    exact ⟨[⟨eq.avaliacao_id, "sistema", "REMOVER_EQUIPAMENTO", equipamentoRemJson eq⟩],
      rfl, by simp⟩
  · intro db i p rec db' h
    obtain ⟨a, _, hdb⟩ := adicionar_outro_recurso_ok_elim db i p rec db' h
    subst hdb
    exact ⟨[⟨a.id, "sistema", "ADD_OUTRO_RECURSO", recursoAddJson p⟩], rfl, by simp⟩
  · intro db i db' h
    obtain ⟨rec, _, hdb⟩ := remover_outro_recurso_ok_elim db i db' h
    subst hdb
    exact ⟨[⟨rec.avaliacao_id, "sistema", "REMOVER_OUTRO_RECURSO", recursoRemJson rec⟩],
      rfl, by simp⟩

theorem claim_C10_witness :
    ∃ novos, bancoAposAprovado.auditoria = bancoExemplo.auditoria ++ novos ∧
      ∀ log ∈ novos, log.usuario = "sistema" :=
  claim_C10.2.2.1 bancoExemplo 1 payloadStatusAprovado aprovadoExemplo
    bancoAposAprovado rfl

end Nortetel
